import Mathlib

/-!
Verification of the CivicPulse agent-runtime pipeline (src/agent-runtime).

The Python sources are shallowly embedded as Lean definitions:

* stateful code (Redis memory / pub-sub, the Postgres audit log, the LLM
  provider, the work-order fulfillment service) is modelled by explicit
  state passing over a `World`, with the outcomes of the external systems
  supplied by deterministic schedules in an `Env` (the i-th write either
  succeeds or fails, the i-th provider call returns text / times out /
  fails in transport, ...);
* Python exceptions are modelled by `Except String` threaded through the
  state: an escaping exception carries the state at the point of failure,
  exactly as the running Python process would;
* machine floats appearing in the dispatcher geometry are modelled as exact
  reals in a dedicated section, and the pattern-analysis thresholds as
  exact rationals;
* Python's `json.loads` (standard library, not repository code) is modelled
  as a deterministic decoder supplied by the environment
  (`Env.jsonLoads`); the fence-extraction logic of `parse_json_response`
  around it is embedded exactly;
* `models.py` (the pydantic data models) is imported by every agent but is
  not part of the source tree; its validators are modelled from the spec
  and marked as such.
-/

namespace CivicPulse

/-! ## Configuration (config.py) -/

/-- config.py `Settings.agent_memory_ttl` (seconds). -/
def settings.agent_memory_ttl : Nat := 3600

/-- config.py `Settings.agent_timeout` (seconds). -/
def settings.agent_timeout : Nat := 30

/-- config.py `Settings.agent_max_retries`. -/
def settings.agent_max_retries : Nat := 3

/-! ## Data model (spec §3; pydantic models are in the absent models.py) -/

/-- Severity / priority enum (LOW/MEDIUM/HIGH/CRITICAL). -/
inductive Severity
  | LOW
  | MEDIUM
  | HIGH
  | CRITICAL
deriving DecidableEq

/-- String value of the enum, as used in `.value` accesses. -/
def Severity.value : Severity → String
  | .LOW => "LOW"
  | .MEDIUM => "MEDIUM"
  | .HIGH => "HIGH"
  | .CRITICAL => "CRITICAL"

/-- ActionPlan produced by the Planner (spec §3). -/
structure ActionPlan where
  situation_summary : String
  risk_assessment : String
  recommended_actions : List String
  resource_requirements : List (String × String)
  timeline : String
  priority : Severity
deriving DecidableEq

/-- One unit assignment inside a DispatchResult. -/
structure Assignment where
  unit_id : String
  unit_type : String
  eta_minutes : Nat
  distance_meters : ℚ
deriving DecidableEq

/-- WorkOrderRequest submitted to the fulfillment service (spec §3). -/
structure WorkOrderRequest where
  incident_id : String
  title : String
  description : String
  priority : Severity
  assigned_unit_id : String
  estimated_duration_minutes : Nat
  zone_id : Option String
deriving DecidableEq

/-- DispatchResult produced by the Dispatcher (spec §3). -/
structure DispatchResult where
  assignments : List Assignment
  work_orders : List WorkOrderRequest
  estimated_completion : String
deriving DecidableEq

/-- Explanation produced by the Analyst (spec §3). -/
structure Explanation where
  explanation : String
  key_factors : List String
  recommendations : List String
  confidence : ℚ
deriving DecidableEq

/-- Row of the `incidents` table as fetched by `db.get_incident_context` /
`db.get_recent_incidents` (fields the pipeline reads). `location` holds the
GeoJSON coordinate pair `[lon, lat]` when known. -/
structure IncidentRec where
  id : String
  itype : String
  severity : String
  status : String
  zone_id : Option String
  location : Option (ℚ × ℚ)
  detected_at : String
deriving DecidableEq

/-- Agent types (models.AgentType). -/
inductive AgentType
  | PLANNER
  | DISPATCHER
  | ANALYST
deriving DecidableEq

def AgentType.value : AgentType → String
  | .PLANNER => "PLANNER"
  | .DISPATCHER => "DISPATCHER"
  | .ANALYST => "ANALYST"

/-- Raw payload fields of an Explanation before validation. -/
structure ExplanationPayload where
  explanation : String
  key_factors : List String
  recommendations : List String
  confidence : ℚ
deriving DecidableEq

/-- A decoded JSON payload, as produced by `json.loads` on a provider
response. The constructors classify the shapes the three stages feed to
their pydantic model constructors; `otherP` is any other JSON value. -/
inductive Payload
  | planP (p : Option ActionPlan)
  | dispatchP (d : Option DispatchResult)
  | explP (e : ExplanationPayload)
  | otherP
deriving DecidableEq

/-- Modelled from the spec: `models.py` is not under `src/`; per §4.2 the
pydantic `ActionPlan(**plan_data)` constructor validates the payload and
raises on any schema failure (missing required field, out-of-range
priority).  A payload carrying a well-formed plan validates; anything else
raises a validation error. -/
def validateActionPlan : Payload → Except String ActionPlan
  | .planP (some p) => .ok p
  | _ => .error "ActionPlan validation error"

/-- Modelled from the spec: `models.py` is not under `src/`; per §4.3 the
pydantic `DispatchResult(**dispatch_data)` constructor validates the
payload and raises on schema failure. -/
def validateDispatchResult : Payload → Except String DispatchResult
  | .dispatchP (some d) => .ok d
  | _ => .error "DispatchResult validation error"

/-- Modelled from the spec: `models.py` is not under `src/`; per §3 and
§4.4 the pydantic `Explanation(**explanation_data)` constructor enforces
the invariant 0.0 ≤ confidence ≤ 1.0 — an out-of-range confidence is a
validation failure — and raises on any other schema failure. -/
def validateExplanation : Payload → Except String Explanation
  | .explP e =>
      if 0 ≤ e.confidence ∧ e.confidence ≤ 1 then
        .ok ⟨e.explanation, e.key_factors, e.recommendations, e.confidence⟩
      else
        .error "Explanation validation error: confidence out of range"
  | _ => .error "Explanation validation error"

/-! ## External-system outcome schedules -/

/-- Outcome of one provider call attempt (`self.llm.agenerate` under
`asyncio.wait_for`): the response text, an `asyncio.TimeoutError`, or any
other transport exception with its message. -/
inductive LLMOutcome
  | success (text : String)
  | timeout
  | transport (msg : String)
deriving DecidableEq

/-- Outcome of one work-order POST to the fulfillment service: HTTP 201
with the created order id, a non-201 status, or a transport exception. -/
inductive WOOutcome
  | created (oid : Nat)
  | httpError (status : Nat)
  | transportError (msg : String)
deriving DecidableEq

/-- Values stored in agent memory (Redis keys written by the stages). -/
inductive MemVal
  | plan (p : ActionPlan)
  | dispatch (d : DispatchResult)
  | expl (e : Explanation)
deriving DecidableEq

/-- Values inside an audit-log `data` payload. -/
inductive JVal
  | s (v : String)
  | n (v : Nat)
  | q (v : ℚ)
  | planV (p : ActionPlan)
  | dispatchV (d : DispatchResult)
  | explV (e : Explanation)
  | null
  | obj (fields : List (String × JVal))

/-- One row of the `agent_logs` table (spec §3 AuditEntry). -/
structure AuditEntry where
  agent_type : String
  step : String
  data : List (String × JVal)
  incident_id : Option String
  work_order_id : Option String

/-- One conversation-history message (spec §3 ConversationMessage). -/
inductive ConvMsg
  | plannerMsg (summary : String) (priority : Severity)
  | dispatcherMsg (units_assigned : Nat) (work_orders_created : Nat)
  | analystMsg (confidence : ℚ) (key_factors_count : Nat)
deriving DecidableEq

/-- A message published on a pub/sub channel by the coordinator. -/
inductive EventV
  | workflowStarted (incident_id : String)
  | planCreated (incident_id : String) (plan : ActionPlan) (priority : String)
  | dispatched (incident_id : String) (d : DispatchResult) (work_orders_count : Nat)
  | explained (incident_id : String) (e : Explanation) (confidence : ℚ)
  | workflowCompleted (incident_id : String)
  | workflowFailed (incident_id : String) (error : String)
deriving DecidableEq

/-- Environment: the deterministic behaviour of everything outside the
agent-runtime process.  Write/call outcomes are indexed schedules: the
i-th invocation of an operation consults position i. -/
structure Env where
  incidents : String → Option IncidentRec
  recent : Option String → Nat → List IncidentRec
  llm : Nat → LLMOutcome
  jsonLoads : String → Option Payload
  auditOk : Nat → Bool
  memSetOk : Nat → Bool
  memGetOk : Nat → Bool
  pubOk : Nat → Bool
  listOk : Nat → Bool
  workOrder : Nat → WOOutcome

/-- Mutable process-visible state: the stores' contents plus invocation
counters into the environment's schedules and the recorded backoff waits. -/
structure World where
  env : Env
  mem : List (String × MemVal)
  audit : List AuditEntry
  lists : List (String × List ConvMsg)
  published : List (String × EventV)
  sleeps : List Nat
  llmCalls : Nat
  auditCalls : Nat
  memSetCalls : Nat
  memGetCalls : Nat
  pubCalls : Nat
  listCalls : Nat
  woCalls : Nat

/-- Fresh state over an environment: empty stores, zero counters. -/
def World.init (env : Env) (mem : List (String × MemVal)) : World :=
  ⟨env, mem, [], [], [], [], 0, 0, 0, 0, 0, 0, 0⟩

/-! ## The computation monad: state passing plus Python exceptions.
A failing computation keeps the state it had at the failure point, exactly
as a raised Python exception leaves already-performed writes in place. -/

def M (α : Type) : Type := World → Except String α × World

def M.pure {α : Type} (a : α) : M α := fun w => (.ok a, w)

def M.bind {α β : Type} (x : M α) (f : α → M β) : M β := fun w =>
  match x w with
  | (.ok a, w') => f a w'
  | (.error e, w') => (.error e, w')

instance : Monad M where
  pure := M.pure
  bind := M.bind

/-- raise -/
def M.throw {α : Type} (e : String) : M α := fun w => (.error e, w)

/-- try/except: the handler runs from the state at the failure point. -/
def M.tryCatch {α : Type} (x : M α) (h : String → M α) : M α := fun w =>
  match x w with
  | (.ok a, w') => (.ok a, w')
  | (.error e, w') => h e w'

/-- Lift a pure `Except` (a Python call that may raise) into `M`. -/
def M.ofExcept {α : Type} : Except String α → M α
  | .ok a => M.pure a
  | .error e => M.throw e

theorem M.run_bind {α β : Type} (x : M α) (f : α → M β) (w : World) :
    (x >>= f) w =
      match x w with
      | (.ok a, w') => f a w'
      | (.error e, w') => (.error e, w') := rfl

theorem M.run_pure {α : Type} (a : α) (w : World) :
    (@Pure.pure M _ α a) w = (.ok a, w) := rfl

/-- First-match association lookup (Redis GET on the key-value store). -/
def getA : List (String × MemVal) → String → Option MemVal
  | [], _ => none
  | (k, v) :: rest, key => if k = key then some v else getA rest key

/-! ## redis_client.py -/

/-- Embeds `RedisClient.set_memory`: `setex` under try/except — on a store failure
the exception is caught and `False` is returned (the write is dropped); on
success the value is stored (TTL not modelled: no clock in the model) and
`True` returned. -/
def RedisClient.set_memory (key : String) (v : MemVal) : M Bool := fun w =>
  let ok := w.env.memSetOk w.memSetCalls
  let w' := { w with memSetCalls := w.memSetCalls + 1 }
  if ok then (.ok true, { w' with mem := (key, v) :: w'.mem })
  else (.ok false, w')

/-- Embeds `RedisClient.get_memory`: `get` under try/except — on a read failure
the exception is caught and `None` is returned. -/
def RedisClient.get_memory (key : String) : M (Option MemVal) := fun w =>
  let ok := w.env.memGetOk w.memGetCalls
  let w' := { w with memGetCalls := w.memGetCalls + 1 }
  if ok then (.ok (getA w.mem key), w') else (.ok none, w')

/-- Keep the last `n` elements of a list (Redis `ltrim key (-n) (-1)`). -/
def trimLast (n : Nat) (l : List ConvMsg) : List ConvMsg :=
  l.drop (l.length - n)

/-- Fetch the conversation list stored under a key (absent key = []). -/
def getL : List (String × List ConvMsg) → String → List ConvMsg
  | [], _ => []
  | (k, v) :: rest, key => if k = key then v else getL rest key

/-- Store a conversation list under a key (overwrite). -/
def setL (ls : List (String × List ConvMsg)) (key : String)
    (v : List ConvMsg) : List (String × List ConvMsg) :=
  (key, v) :: ls

/-- Embeds `RedisClient.append_to_list`: `rpush` then `ltrim` to the last
`max_length` entries, under try/except returning `False` on failure. -/
def RedisClient.append_to_list (key : String) (v : ConvMsg)
    (max_length : Nat) : M Bool := fun w =>
  let ok := w.env.listOk w.listCalls
  let w' := { w with listCalls := w.listCalls + 1 }
  if ok then
    (.ok true,
     { w' with lists := setL w'.lists key (trimLast max_length (getL w'.lists key ++ [v])) })
  else (.ok false, w')

/-- Embeds `RedisClient.get_list`: `lrange` under try/except returning `[]` on
failure. -/
def RedisClient.get_list (key : String) : M (List ConvMsg) := fun w =>
  let ok := w.env.listOk w.listCalls
  let w' := { w with listCalls := w.listCalls + 1 }
  if ok then (.ok (getL w.lists key), w') else (.ok [], w')

/-- Embeds `RedisClient.publish`: pub/sub publish under try/except returning
`False` on failure. -/
def RedisClient.publish (channel : String) (msg : EventV) : M Bool := fun w =>
  let ok := w.env.pubOk w.pubCalls
  let w' := { w with pubCalls := w.pubCalls + 1 }
  if ok then (.ok true, { w' with published := w'.published ++ [(channel, msg)] })
  else (.ok false, w')

/-- Embeds `RedisClient.get_agent_memory_key`. -/
def get_agent_memory_key (agent_type : String) (incident_id : String) : String :=
  "agent:" ++ agent_type.toLower ++ ":" ++ incident_id

/-- Embeds `RedisClient.get_conversation_key`. -/
def get_conversation_key (incident_id : String) : String :=
  "conversation:" ++ incident_id

/-! ## database.py -/

/-- Embeds `Database.log_agent_activity`: INSERT INTO agent_logs RETURNING id.  A
write failure raises (rolled back, re-raised by `get_connection`). -/
def db.log_agent_activity (agent_type : String) (step : String)
    (data : List (String × JVal)) (incident_id : Option String)
    (work_order_id : Option String) : M Nat := fun w =>
  let ok := w.env.auditOk w.auditCalls
  let w' := { w with auditCalls := w.auditCalls + 1 }
  if ok then
    (.ok w.audit.length,
     { w' with audit := w'.audit ++ [⟨agent_type, step, data, incident_id, work_order_id⟩] })
  else (.error "agent_logs insert failed", w')

/-- Embeds `Database.get_incident_context` (read-only SELECT). -/
def db.get_incident_context (incident_id : String) : M (Option IncidentRec) :=
  fun w => (.ok (w.env.incidents incident_id), w)

/-- Embeds `Database.get_recent_incidents` (read-only SELECT). -/
def db.get_recent_incidents (zone_id : Option String) (limit : Nat) :
    M (List IncidentRec) :=
  fun w => (.ok (w.env.recent zone_id limit), w)

/-! ## base_agent.py -/

/-- Embeds `BaseAgent.log_reasoning`: logs to the database; a failure is logged
to the process logger and re-raised (`raise` in the except block), so an
audit-log write failure is fatal to the caller. -/
def BaseAgent.log_reasoning (agent : AgentType) (step : String)
    (data : List (String × JVal)) (incident_id : Option String)
    (work_order_id : Option String) : M Nat :=
  db.log_agent_activity agent.value step data incident_id work_order_id

/-- Embeds `BaseAgent.store_memory`: derives the namespaced key and delegates to
`RedisClient.set_memory` (no TTL override: default applies). -/
def BaseAgent.store_memory (agent : AgentType) (incident_id : String)
    (key : String) (v : MemVal) : M Bool :=
  RedisClient.set_memory
    (get_agent_memory_key agent.value incident_id ++ ":" ++ key) v

/-- Embeds `BaseAgent.get_memory`. -/
def BaseAgent.get_memory (agent : AgentType) (incident_id : String)
    (key : String) : M (Option MemVal) :=
  RedisClient.get_memory
    (get_agent_memory_key agent.value incident_id ++ ":" ++ key)

/-- Embeds `BaseAgent.add_to_conversation` (bounded list, max length 100). -/
def BaseAgent.add_to_conversation (incident_id : String) (msg : ConvMsg) :
    M Bool :=
  RedisClient.append_to_list (get_conversation_key incident_id) msg 100

/-- Embeds `BaseAgent.get_conversation_history`. -/
def BaseAgent.get_conversation_history (incident_id : String) :
    M (List ConvMsg) :=
  RedisClient.get_list (get_conversation_key incident_id)

/-- One provider call attempt: consumes the next scheduled outcome. -/
def BaseAgent.llm_attempt : M LLMOutcome := fun w =>
  (.ok (w.env.llm w.llmCalls), { w with llmCalls := w.llmCalls + 1 })

/-- Embeds `await asyncio.sleep(secs)`: recorded in the trace. -/
def sleepM (secs : Nat) : M Unit := fun w =>
  (.ok (), { w with sleeps := w.sleeps ++ [secs] })

/-- The timeout message `f"LLM call timed out after {settings.agent_timeout}s"`. -/
def timeoutMsg : String :=
  "LLM call timed out after " ++ toString settings.agent_timeout ++ "s"

/-- Python string interpolation of an `Optional[str]` (`None` prints as
"None"). -/
def optStr : Option String → String
  | none => "None"
  | some s => s

/-- The exhaustion message
`f"LLM call failed after {max_retries} attempts: {last_error}"`. -/
def failMsg (max_retries : Nat) (last_error : Option String) : String :=
  "LLM call failed after " ++ toString max_retries ++ " attempts: " ++
    optStr last_error

/-- Python `max_retries = max_retries or settings.agent_max_retries`:
`None` and `0` are falsy and fall back to the configured default. -/
def resolveRetries : Option Nat → Nat
  | none => settings.agent_max_retries
  | some 0 => settings.agent_max_retries
  | some (k + 1) => k + 1

/-- The retry loop of `BaseAgent.call_llm_with_retry`: `fuel` attempts
remain out of `n` total, so the current 0-based attempt index is
`n - fuel`; on a timeout or transport failure the last error is recorded
and, unless this was the final attempt, the loop sleeps `2 ^ attempt`
seconds before retrying.  On exhaustion it raises the failure message
carrying the last error. -/
def BaseAgent.call_llm_attempts (n : Nat) :
    Nat → Option String → M String
  | 0, last_error => M.throw (failMsg n last_error)
  | fuel + 1, _last_error => do
      let attempt := n - (fuel + 1)
      let out ← BaseAgent.llm_attempt
      match out with
      | .success t => pure t
      | .timeout => do
          if attempt < n - 1 then sleepM (2 ^ attempt) else pure ()
          BaseAgent.call_llm_attempts n fuel (some timeoutMsg)
      | .transport m => do
          if attempt < n - 1 then sleepM (2 ^ attempt) else pure ()
          BaseAgent.call_llm_attempts n fuel (some m)

/-- Embeds `BaseAgent.call_llm_with_retry`: resolves the attempt bound and runs
the retry loop with `last_error = None`.  The message list the stages pass
is prompt text for the provider; the provider's behaviour is given by the
environment schedule, so the messages are not modelled. -/
def BaseAgent.call_llm_with_retry (max_retries : Option Nat) : M String :=
  let n := resolveRetries max_retries
  BaseAgent.call_llm_attempts n n none

/-- Python `str.find(needle, start)` restricted to found-or-not: the first
index `≥ start` where `needle` occurs in `hay`, if any. -/
def findSub (hay pat : List Char) (start : Nat) : Option Nat :=
  ((List.range (hay.length + 1)).filter
    (fun i => decide (start ≤ i) && pat.isPrefixOf (hay.drop i))).head?

/-- Python slice `cs[start:stop]`. -/
def pySlice (cs : List Char) (start stop : Nat) : List Char :=
  (cs.take stop).drop start

/-- The markdown-fence extraction of `BaseAgent.parse_json_response`: if
"```json" occurs, take the text between it and the next "```" (Python's
`find` returning -1 for a missing closing fence makes the slice end at the
last character, i.e. `[start:-1]`) and strip it; else the same with a bare
"```" fence; else the response unchanged. -/
def extractJsonBlock (response : String) : String :=
  let cs := response.toList
  match findSub cs ("```json".toList) 0 with
  | some i =>
      let start := i + 7
      let stop := (findSub cs ("```".toList) start).getD (cs.length - 1)
      (String.mk (pySlice cs start stop)).trim
  | none =>
      match findSub cs ("```".toList) 0 with
      | some i =>
          let start := i + 3
          let stop := (findSub cs ("```".toList) start).getD (cs.length - 1)
          (String.mk (pySlice cs start stop)).trim
      | none => response

/-- Embeds `BaseAgent.parse_json_response`: extract the JSON block and decode it
with `json.loads` (`jsonLoads` models the standard-library decoder, a pure
function of the text); a decoding failure raises
`ValueError("Invalid JSON response from LLM: ...")`. -/
def BaseAgent.parse_json_response (jsonLoads : String → Option Payload)
    (response : String) : Except String Payload :=
  match jsonLoads (extractJsonBlock response) with
  | some d => .ok d
  | none => .error "Invalid JSON response from LLM"

/-- Run `parse_json_response` with the environment's decoder.  The state
is untouched: parsing is pure and in particular makes no provider call. -/
def M.parseResp (response : String) : M Payload := fun w =>
  (BaseAgent.parse_json_response w.env.jsonLoads response, w)

/-! ## planner_agent.py -/

/-- An entry of `context["recent_incidents"]`. -/
structure RecentIncidentSummary where
  rtype : String
  severity : String
  status : String
  detected_at : String
deriving DecidableEq

/-- An entry of the planner's simulated unit list. -/
structure SimUnit where
  unit_id : String
  utype : String
  status : String
  location : String
deriving DecidableEq

/-- Embeds `context["weather"]` (simulated, constant). -/
structure Weather where
  condition : String
  temperature : Nat
  wind_speed : Nat
deriving DecidableEq

/-- Embeds `context["historical_patterns"]`. -/
structure HistoricalPatterns where
  incident_type : String
  average_resolution_time : Nat
  common_causes : List String
deriving DecidableEq

/-- The context dictionary built by `PlannerAgent._gather_context` when the
incident exists (`none` models the empty dict returned when it does not). -/
structure PlannerContext where
  recent_incidents : List RecentIncidentSummary
  available_units : List SimUnit
  weather : Weather
  historical_patterns : HistoricalPatterns
deriving DecidableEq

/-- Embeds `PlannerAgent._get_simulated_units`. -/
def PlannerAgent.get_simulated_units (_zone_id : Option String) : List SimUnit :=
  [⟨"UNIT-001", "maintenance", "available", "nearby"⟩,
   ⟨"UNIT-002", "emergency", "available", "nearby"⟩,
   ⟨"UNIT-003", "inspection", "available", "nearby"⟩]

/-- Embeds `PlannerAgent._get_avg_resolution_time` (fixed lookup, default 60). -/
def PlannerAgent.get_avg_resolution_time (incident_type : String) : Nat :=
  if incident_type = "WASTE_OVERFLOW" then 30
  else if incident_type = "LIGHTING_FAILURE" then 45
  else if incident_type = "WATER_ANOMALY" then 60
  else if incident_type = "TRAFFIC_CONGESTION" then 90
  else if incident_type = "ENVIRONMENTAL_HAZARD" then 120
  else if incident_type = "NOISE_COMPLAINT" then 20
  else 60

/-- Embeds `PlannerAgent._get_common_causes` (fixed lookup, default ["Unknown"]). -/
def PlannerAgent.get_common_causes (incident_type : String) : List String :=
  if incident_type = "WASTE_OVERFLOW" then
    ["Missed collection", "Overuse", "Equipment failure"]
  else if incident_type = "LIGHTING_FAILURE" then
    ["Bulb burnout", "Power issue", "Vandalism"]
  else if incident_type = "WATER_ANOMALY" then
    ["Pipe leak", "Pressure issue", "Contamination"]
  else if incident_type = "TRAFFIC_CONGESTION" then
    ["Accident", "Construction", "Event"]
  else if incident_type = "ENVIRONMENTAL_HAZARD" then
    ["Spill", "Air quality", "Weather"]
  else if incident_type = "NOISE_COMPLAINT" then
    ["Construction", "Event", "Equipment"]
  else ["Unknown"]

/-- Embeds `PlannerAgent._gather_context`: fetches the incident; an absent
incident yields the empty context (`{}`); otherwise collects the recent
incidents of the same zone (limit 5), the simulated unit list, the
constant weather signal and the historical-pattern lookup. -/
def PlannerAgent.gather_context (incident_id : String) :
    M (Option PlannerContext) := do
  let inc? ← db.get_incident_context incident_id
  match inc? with
  | none => pure none
  | some inc => do
      let recent ←
        match inc.zone_id with
        | some z => do
            let rs ← db.get_recent_incidents (some z) 5
            pure (rs.map (fun r => RecentIncidentSummary.mk r.itype r.severity r.status r.detected_at))
        | none => pure []
      pure (some
        { recent_incidents := recent
          available_units := PlannerAgent.get_simulated_units inc.zone_id
          weather := ⟨"clear", 72, 5⟩
          historical_patterns :=
            ⟨inc.itype, PlannerAgent.get_avg_resolution_time inc.itype,
             PlannerAgent.get_common_causes inc.itype⟩ })

/-- Embeds `PlannerAgent._summarize_context`: counts, weather condition and
incident type; on the empty context the `.get` defaults give zero counts
and `None` fields. -/
def PlannerAgent.summarize_context : Option PlannerContext → List (String × JVal)
  | none =>
      [("recent_incidents_count", .n 0), ("available_units_count", .n 0),
       ("weather", .null), ("incident_type", .null)]
  | some c =>
      [("recent_incidents_count", .n c.recent_incidents.length),
       ("available_units_count", .n c.available_units.length),
       ("weather", .s c.weather.condition),
       ("incident_type", .s c.historical_patterns.incident_type)]

/-- Embeds `PlannerAgent.analyze_incident`: logs ANALYSIS_START, then inside the
try block gathers context, logs CONTEXT_GATHERED, fetches the incident
(raising if absent), calls the provider with retry, parses and validates
the plan, stores it in memory, logs PLAN_CREATED and appends a
conversation entry; any failure in the try block is logged as
ANALYSIS_FAILED and re-raised. -/
def PlannerAgent.analyze_incident (incident_id : String) : M ActionPlan := do
  let _ ← BaseAgent.log_reasoning .PLANNER "ANALYSIS_START"
      [("incident_id", .s incident_id)] (some incident_id) none
  M.tryCatch
    (do
      let context ← PlannerAgent.gather_context incident_id
      let _ ← BaseAgent.log_reasoning .PLANNER "CONTEXT_GATHERED"
          [("context_summary", .obj (PlannerAgent.summarize_context context))]
          (some incident_id) none
      let inc? ← db.get_incident_context incident_id
      match inc? with
      | none => M.throw ("Incident " ++ incident_id ++ " not found")
      | some _inc => do
          let response ← BaseAgent.call_llm_with_retry none
          let plan_data ← M.parseResp response
          let action_plan ← M.ofExcept (validateActionPlan plan_data)
          let _ ← BaseAgent.store_memory .PLANNER incident_id "action_plan"
              (.plan action_plan)
          let _ ← BaseAgent.log_reasoning .PLANNER "PLAN_CREATED"
              [("action_plan", .planV action_plan),
               ("incident_id", .s incident_id)] (some incident_id) none
          let _ ← BaseAgent.add_to_conversation incident_id
              (.plannerMsg action_plan.situation_summary action_plan.priority)
          pure action_plan)
    (fun e => do
      let _ ← BaseAgent.log_reasoning .PLANNER "ANALYSIS_FAILED"
          [("error", .s e), ("incident_id", .s incident_id)]
          (some incident_id) none
      M.throw e)

/-! ## dispatcher_agent.py — pipeline level -/

/-- An entry of the dispatcher's simulated unit catalog. -/
structure DUnit where
  unit_id : String
  unit_type : String
  capabilities : List String
  lon : ℚ
  lat : ℚ
deriving DecidableEq

/-- Embeds `DispatcherAgent._get_simulated_units`: the fixed four-unit catalog. -/
def DispatcherAgent.get_simulated_units : List DUnit :=
  [⟨"UNIT-001", "maintenance", ["waste", "lighting", "general"], -122400/1000, 37800/1000⟩,
   ⟨"UNIT-002", "emergency", ["water", "environmental", "emergency"], -122410/1000, 37810/1000⟩,
   ⟨"UNIT-003", "inspection", ["inspection", "monitoring", "assessment"], -122390/1000, 37790/1000⟩,
   ⟨"UNIT-004", "traffic", ["traffic", "signage", "road"], -122420/1000, 37820/1000⟩]

/-- Pipeline-level `DispatcherAgent._find_available_units`: the catalog of
simulated units.  When the incident has a known location the source
additionally annotates each unit with `distance_meters` /
`estimated_arrival_minutes` and sorts by distance — operations that
preserve the set and number of units and feed only the LLM prompt text,
which this state model abstracts (provider behaviour comes from the
environment schedule); the annotation and sort arithmetics are embedded
exactly in the geometry section below. -/
def DispatcherAgent.find_available_units (_inc : IncidentRec) :
    M (List DUnit) :=
  pure DispatcherAgent.get_simulated_units

/-- One work-order POST: consumes the next scheduled fulfillment outcome. -/
def DispatcherAgent.wo_attempt : M WOOutcome := fun w =>
  (.ok (w.env.workOrder w.woCalls), { w with woCalls := w.woCalls + 1 })

/-- Embeds `DispatcherAgent._create_work_orders`: submits each work order in
turn; a 201 response appends the created order, any other status or a
transport exception is logged to the process logger and skipped — the
loop never raises. -/
def DispatcherAgent.create_work_orders (incident_id : String) :
    List WorkOrderRequest → M (List Nat)
  | [] => pure []
  | _wo :: rest => do
      let out ← DispatcherAgent.wo_attempt
      match out with
      | .created oid => do
          let others ← DispatcherAgent.create_work_orders incident_id rest
          pure (oid :: others)
      | .httpError _ => DispatcherAgent.create_work_orders incident_id rest
      | .transportError _ => DispatcherAgent.create_work_orders incident_id rest

/-- Embeds `DispatcherAgent.dispatch`: logs DISPATCH_START, then inside the try
block fetches the incident (raising if absent), finds available units,
logs UNITS_FOUND with the count, calls the provider with retry, parses and
validates the DispatchResult, submits the work orders (partial submission
failures are non-fatal), stores the result, logs DISPATCH_COMPLETED with
the created-count and appends a conversation entry; any failure in the try
block is logged as DISPATCH_FAILED and re-raised. -/
def DispatcherAgent.dispatch (incident_id : String)
    (action_plan : ActionPlan) : M DispatchResult := do
  let _ ← BaseAgent.log_reasoning .DISPATCHER "DISPATCH_START"
      [("incident_id", .s incident_id),
       ("action_plan_priority", .s action_plan.priority.value)]
      (some incident_id) none
  M.tryCatch
    (do
      let inc? ← db.get_incident_context incident_id
      match inc? with
      | none => M.throw ("Incident " ++ incident_id ++ " not found")
      | some inc => do
          let available_units ← DispatcherAgent.find_available_units inc
          let _ ← BaseAgent.log_reasoning .DISPATCHER "UNITS_FOUND"
              [("available_units_count", .n available_units.length)]
              (some incident_id) none
          let response ← BaseAgent.call_llm_with_retry none
          let dispatch_data ← M.parseResp response
          let dispatch_result ← M.ofExcept (validateDispatchResult dispatch_data)
          let created ← DispatcherAgent.create_work_orders incident_id
              dispatch_result.work_orders
          let _ ← BaseAgent.store_memory .DISPATCHER incident_id
              "dispatch_result" (.dispatch dispatch_result)
          let _ ← BaseAgent.log_reasoning .DISPATCHER "DISPATCH_COMPLETED"
              [("dispatch_result", .dispatchV dispatch_result),
               ("work_orders_created", .n created.length),
               ("incident_id", .s incident_id)] (some incident_id) none
          let _ ← BaseAgent.add_to_conversation incident_id
              (.dispatcherMsg dispatch_result.assignments.length created.length)
          pure dispatch_result)
    (fun e => do
      let _ ← BaseAgent.log_reasoning .DISPATCHER "DISPATCH_FAILED"
          [("error", .s e), ("incident_id", .s incident_id)]
          (some incident_id) none
      M.throw e)

/-! ## analyst_agent.py -/

/-- Embeds `AnalystAgent.explain_decision`: logs EXPLANATION_START, then inside
the try block fetches the incident (raising if absent), calls the provider
with retry, parses and validates the Explanation, stores it, logs
EXPLANATION_CREATED and appends a conversation entry; any failure in the
try block is logged as EXPLANATION_FAILED and re-raised. -/
def AnalystAgent.explain_decision (incident_id : String)
    (_action_plan : ActionPlan) (_dispatch_result : DispatchResult) :
    M Explanation := do
  let _ ← BaseAgent.log_reasoning .ANALYST "EXPLANATION_START"
      [("incident_id", .s incident_id)] (some incident_id) none
  M.tryCatch
    (do
      let inc? ← db.get_incident_context incident_id
      match inc? with
      | none => M.throw ("Incident " ++ incident_id ++ " not found")
      | some _inc => do
          let response ← BaseAgent.call_llm_with_retry none
          let explanation_data ← M.parseResp response
          let explanation ← M.ofExcept (validateExplanation explanation_data)
          let _ ← BaseAgent.store_memory .ANALYST incident_id "explanation"
              (.expl explanation)
          let _ ← BaseAgent.log_reasoning .ANALYST "EXPLANATION_CREATED"
              [("explanation", .explV explanation),
               ("incident_id", .s incident_id)] (some incident_id) none
          let _ ← BaseAgent.add_to_conversation incident_id
              (.analystMsg explanation.confidence explanation.key_factors.length)
          pure explanation)
    (fun e => do
      let _ ← BaseAgent.log_reasoning .ANALYST "EXPLANATION_FAILED"
          [("error", .s e), ("incident_id", .s incident_id)]
          (some incident_id) none
      M.throw e)

/-- One identified pattern (an entry of the `patterns` list). -/
structure Pattern where
  ptype : String
  description : String
  count : Nat
  percentage : ℚ
  zone_id : Option String
deriving DecidableEq

/-- One Python-dict count update (`counts[k] = counts.get(k, 0) + 1`,
keys kept in first-occurrence order). -/
def countsStep (f : IncidentRec → Option String)
    (acc : List (String × Nat)) (i : IncidentRec) : List (String × Nat) :=
  match f i with
  | none => acc
  | some k =>
      if acc.any (fun p => p.1 = k) then
        acc.map (fun p => if p.1 = k then (p.1, p.2 + 1) else p)
      else acc ++ [(k, 1)]

/-- Build counts keyed in first-occurrence order, as a Python dict
accumulating `counts[k] = counts.get(k, 0) + 1` does. -/
def countsBy (f : IncidentRec → Option String) (l : List IncidentRec) :
    List (String × Nat) :=
  l.foldl (countsStep f) []

/-- Python `max(items, key=lambda x: x[1])`: the first item attaining the
maximal count, in iteration order. -/
def argmaxFirst (l : List (String × Nat)) : Option (String × Nat) :=
  l.foldl
    (fun acc x =>
      match acc with
      | none => some x
      | some a => if x.2 > a.2 then some x else some a)
    none

/-- Embeds `AnalystAgent._identify_patterns`: the frequency pattern (most common
type) whenever any incidents exist; the high-severity pattern when the
CRITICAL+HIGH count strictly exceeds 30% of the total; the geographic
hotspot when the most-represented zone strictly exceeds 40% of the total. -/
def AnalystAgent.identify_patterns (incidents : List IncidentRec) :
    List Pattern :=
  let patterns : List Pattern := []
  let type_counts := countsBy (fun i => some i.itype) incidents
  let patterns :=
    match argmaxFirst type_counts with
    | none => patterns
    | some mc =>
        patterns ++
          [⟨"incident_frequency", "Most common incident type: " ++ mc.1,
            mc.2, (mc.2 : ℚ) / incidents.length * 100, none⟩]
  let severity_counts := countsBy (fun i => some i.severity) incidents
  let patterns :=
    if severity_counts.isEmpty then patterns
    else
      let critical_count : Nat :=
        (severity_counts.filter (fun p => p.1 = "CRITICAL" ∨ p.1 = "HIGH")).foldl
          (fun acc p => acc + p.2) 0
      if (critical_count : ℚ) > (incidents.length : ℚ) * (3/10) then
        patterns ++
          [⟨"high_severity_trend",
            "High proportion of critical/high severity incidents",
            critical_count, (critical_count : ℚ) / incidents.length * 100, none⟩]
      else patterns
  let zone_counts := countsBy (fun i => i.zone_id) incidents
  match argmaxFirst zone_counts with
  | none => patterns
  | some hotspot =>
      if (hotspot.2 : ℚ) > (incidents.length : ℚ) * (4/10) then
        patterns ++
          [⟨"geographic_hotspot",
            "Incident hotspot detected in zone " ++ hotspot.1,
            hotspot.2, (hotspot.2 : ℚ) / incidents.length * 100,
            some hotspot.1⟩]
      else patterns

/-- Embeds `AnalystAgent._generate_insights`: one templated sentence per pattern
type, joined with spaces; a fixed sentence when no patterns exist. -/
def AnalystAgent.generate_insights (patterns : List Pattern) : String :=
  if patterns.isEmpty then
    "No significant patterns detected in recent incidents."
  else
    String.intercalate " "
      (patterns.filterMap (fun p =>
        if p.ptype = "incident_frequency" then
          some "The most frequent incident type suggests a systematic issue that may benefit from preventive measures."
        else if p.ptype = "high_severity_trend" then
          some "A concerning share of incidents are high or critical severity, indicating potential infrastructure stress or inadequate preventive maintenance."
        else if p.ptype = "geographic_hotspot" then
          some "A geographic hotspot has been identified with incidents concentrated in one zone, suggesting localized infrastructure issues."
        else none))

/-- Embeds `AnalystAgent._create_recommendations`: fixed recommendation strings
per pattern type; a fallback when none apply. -/
def AnalystAgent.create_recommendations (patterns : List Pattern) :
    List String :=
  let recs :=
    patterns.flatMap (fun p =>
      if p.ptype = "incident_frequency" then
        ["Consider implementing preventive maintenance program for the most common incident type"]
      else if p.ptype = "high_severity_trend" then
        ["Increase monitoring frequency and allocate additional resources for high-priority areas",
         "Review and update incident response protocols to reduce escalation"]
      else if p.ptype = "geographic_hotspot" then
        ["Conduct comprehensive infrastructure assessment in hotspot zone",
         "Deploy additional sensors or monitoring equipment in affected area"]
      else [])
  if recs.isEmpty then ["Continue monitoring for emerging patterns"] else recs

/-- Result shape of `AnalystAgent.analyze_patterns`. -/
inductive PatternsResult
  | insufficient (insights : String)
  | report (patterns : List Pattern) (insights : String)
      (recommendations : List String) (incidents_analyzed : Nat)
      (time_range_hours : Nat)
deriving DecidableEq

/-- Embeds `AnalystAgent.analyze_patterns`: fetches up to 50 recent active
incidents (optionally zone-filtered); with no incidents returns the
insufficient-data shape, otherwise the identified patterns with templated
insights and recommendations, logging PATTERN_ANALYSIS; no provider call
is made. -/
def AnalystAgent.analyze_patterns (zone_id : Option String)
    (time_range_hours : Nat) : M PatternsResult := do
  let incidents ← db.get_recent_incidents zone_id 50
  if incidents.isEmpty then
    pure (.insufficient "Insufficient data for pattern analysis")
  else do
    let patterns := AnalystAgent.identify_patterns incidents
    let insights := AnalystAgent.generate_insights patterns
    let recommendations := AnalystAgent.create_recommendations patterns
    let result := PatternsResult.report patterns insights recommendations
        incidents.length time_range_hours
    let _ ← BaseAgent.log_reasoning .ANALYST "PATTERN_ANALYSIS"
        [("incidents_analyzed", .n incidents.length)] none none
    pure result

/-! ## coordinator.py -/

/-- Result of `AgentCoordinator.process_incident`. -/
inductive CoordResult
  | alreadyProcessed (incident_id : String)
  | completed (incident_id : String) (action_plan : ActionPlan)
      (dispatch_result : DispatchResult) (explanation : Explanation)
deriving DecidableEq

/-- Embeds `AgentCoordinator.process_incident`: unless forced, reads the
Planner's stored ActionPlan and short-circuits with `already_processed`
when one is present; otherwise publishes `workflow_started`, runs
Planner → Dispatcher → Analyst publishing the corresponding lifecycle
events, and returns the aggregated completed result after publishing
`workflow_completed`.  Any exception publishes `workflow_failed` with the
error text and re-raises. -/
def AgentCoordinator.process_incident (incident_id : String)
    (force_reprocess : Bool) : M CoordResult :=
  M.tryCatch
    (do
      let existing_plan ←
        if force_reprocess then pure none
        else BaseAgent.get_memory .PLANNER incident_id "action_plan"
      match existing_plan with
      | some _ => pure (CoordResult.alreadyProcessed incident_id)
      | none => do
          let _ ← RedisClient.publish "agent:workflow"
              (.workflowStarted incident_id)
          let action_plan ← PlannerAgent.analyze_incident incident_id
          let _ ← RedisClient.publish "agent:plan_created"
              (.planCreated incident_id action_plan action_plan.priority.value)
          let dispatch_result ← DispatcherAgent.dispatch incident_id action_plan
          let _ ← RedisClient.publish "agent:dispatched"
              (.dispatched incident_id dispatch_result
                dispatch_result.work_orders.length)
          let explanation ← AnalystAgent.explain_decision incident_id
              action_plan dispatch_result
          let _ ← RedisClient.publish "agent:explained"
              (.explained incident_id explanation explanation.confidence)
          let result := CoordResult.completed incident_id action_plan
              dispatch_result explanation
          let _ ← RedisClient.publish "agent:workflow"
              (.workflowCompleted incident_id)
          pure result)
    (fun e => do
      let _ ← RedisClient.publish "agent:workflow"
          (.workflowFailed incident_id e)
      M.throw e)

/-- Result of `AgentCoordinator.get_incident_status`. -/
structure StatusReport where
  incident_id : String
  has_action_plan : Bool
  has_dispatch_result : Bool
  has_explanation : Bool
  conversation_length : Nat
  completed : Bool
deriving DecidableEq

/-- Embeds `AgentCoordinator.get_incident_status`: a read-only projection —
presence of each stage's artifact in memory plus the conversation length;
`completed` is the conjunction of the three presence flags. -/
def AgentCoordinator.get_incident_status (incident_id : String) :
    M StatusReport := do
  let action_plan ← BaseAgent.get_memory .PLANNER incident_id "action_plan"
  let dispatch_result ← BaseAgent.get_memory .DISPATCHER incident_id
      "dispatch_result"
  let explanation ← BaseAgent.get_memory .ANALYST incident_id "explanation"
  let conversation ← BaseAgent.get_conversation_history incident_id
  pure
    { incident_id := incident_id
      has_action_plan := action_plan.isSome
      has_dispatch_result := dispatch_result.isSome
      has_explanation := explanation.isSome
      conversation_length := conversation.length
      completed := action_plan.isSome && dispatch_result.isSome && explanation.isSome }

/-! ## dispatcher_agent.py — geometry (`_calculate_distance`,
`_estimate_travel_time`, the distance annotation and sort of
`_find_available_units`).  Machine floats are modelled as exact reals. -/

/-- A GeoJSON point: `coordinates = [lon, lat]`. -/
structure GeoPoint where
  lon : ℝ
  lat : ℝ

/-- Python `math.radians`. -/
noncomputable def radians (x : ℝ) : ℝ := x * Real.pi / 180

/-- Embeds `DispatcherAgent._calculate_distance`: the planar approximation
`dx = Δlon · 111000 · cos(radians(lat₁)); dy = Δlat · 111000;
sqrt(dx² + dy²)` where `lat₁` is the first argument's (the incident's)
latitude. -/
noncomputable def DispatcherAgent.calculate_distance
    (location1 location2 : GeoPoint) : ℝ :=
  let dx := (location1.lon - location2.lon) * 111000 *
    Real.cos (radians location1.lat)
  let dy := (location1.lat - location2.lat) * 111000
  Real.sqrt (dx ^ 2 + dy ^ 2)

/-- Embeds `DispatcherAgent._estimate_travel_time`:
`max(5, int(distance / (30000/60)))`.  Python's `int()` truncates toward
zero, which on the nonnegative distances produced by
`_calculate_distance` is the floor. -/
noncomputable def DispatcherAgent.estimate_travel_time
    (distance_meters : ℝ) : ℤ :=
  let speed_mpm : ℝ := 30000 / 60
  let travel_time := distance_meters / speed_mpm
  max 5 ⌊travel_time⌋

/-- The ETA formula exactly as the claim words it (`max(5, dist/(30000/60))`
with no integer truncation); kept only to compare against the source's
`_estimate_travel_time`. -/
noncomputable def claimed_eta (distance_meters : ℝ) : ℝ :=
  max 5 (distance_meters / (30000 / 60))

/-- A candidate unit with its location, before annotation. -/
structure UnitG where
  unit_id : String
  unit_type : String
  loc : GeoPoint

/-- A unit after `_find_available_units` adds the derived
`distance_meters` and `estimated_arrival_minutes` fields. -/
structure RankedUnit where
  unit_id : String
  unit_type : String
  distance_meters : ℝ
  eta_minutes : ℤ

/-- The per-unit annotation step of `_find_available_units`. -/
noncomputable def DispatcherAgent.annotate_unit (incident_location : GeoPoint)
    (u : UnitG) : RankedUnit :=
  let d := DispatcherAgent.calculate_distance incident_location u.loc
  ⟨u.unit_id, u.unit_type, d, DispatcherAgent.estimate_travel_time d⟩

/-- Models `units.sort(key=lambda u: u["distance_meters"])`'s ordering. -/
def distLE (a b : RankedUnit) : Prop :=
  a.distance_meters ≤ b.distance_meters

noncomputable instance : DecidableRel distLE :=
  fun a b => Real.decidableLE a.distance_meters b.distance_meters

instance : IsTotal RankedUnit distLE :=
  ⟨fun a b => le_total a.distance_meters b.distance_meters⟩

instance : IsTrans RankedUnit distLE :=
  ⟨fun _ _ _ hab hbc => le_trans hab hbc⟩

/-- The known-location branch of `_find_available_units`: annotate each
unit with distance and ETA, then sort ascending by distance (Python's
stable in-place sort, modelled by insertion sort — also stable; only
sortedness and the underlying permutation are used downstream). -/
noncomputable def DispatcherAgent.rank_units (incident_location : GeoPoint)
    (units : List UnitG) : List RankedUnit :=
  List.insertionSort distLE (units.map (DispatcherAgent.annotate_unit incident_location))

/-! ## Sample data for concrete runs -/

/-- A concrete well-formed ActionPlan. -/
def samplePlan : ActionPlan :=
  ⟨"overflowing bin", "low risk", ["collect waste"], [("truck", "1")],
   "1 hour", .MEDIUM⟩

/-- A concrete DispatchResult carrying three work orders. -/
def sampleWO (n : Nat) : WorkOrderRequest :=
  ⟨"i1", "wo-" ++ toString n, "do it", .MEDIUM, "UNIT-001", 30, some "Z1"⟩

def sampleDispatch : DispatchResult :=
  ⟨[⟨"UNIT-001", "maintenance", 5, 0⟩], [sampleWO 1, sampleWO 2, sampleWO 3],
   "2 hours"⟩

/-- A concrete well-formed Explanation payload. -/
def sampleExplPayload : ExplanationPayload :=
  ⟨"because", ["severity"], ["monitor"], 4/5⟩

/-- A concrete incident row. -/
def sampleIncident (id : String) : IncidentRec :=
  ⟨id, "WASTE_OVERFLOW", "MEDIUM", "ACTIVE", some "Z1", none, "2024-01-01"⟩

/-- Environment builder for concrete runs: all stores healthy unless the
given overrides say otherwise. -/
def mkEnv (incidents : String → Option IncidentRec)
    (llm : Nat → LLMOutcome) (jsonLoads : String → Option Payload)
    (workOrder : Nat → WOOutcome) : Env :=
  { incidents := incidents
    recent := fun _ _ => []
    llm := llm
    jsonLoads := jsonLoads
    auditOk := fun _ => true
    memSetOk := fun _ => true
    memGetOk := fun _ => true
    pubOk := fun _ => true
    listOk := fun _ => true
    workOrder := workOrder }

/-! ## C1 — idempotent short-circuit -/

/-- C1: with `forceReprocess=false`, if the Planner's `action_plan` key is
present in Memory (as it is after a first call that stored one) and the
idempotency read reaches the store, `processIncident` returns
`already_processed` and the state is unchanged apart from the read
counter: no second ActionPlan is stored, no audit entry is written, no
lifecycle event is published, and no stage or provider call runs. -/
theorem processIncident_already_processed
    (w : World) (incident_id : String) (v : MemVal)
    (hget : w.env.memGetOk w.memGetCalls = true)
    (hmem : getA w.mem
      (get_agent_memory_key AgentType.PLANNER.value incident_id ++ ":" ++
        "action_plan") = some v) :
    AgentCoordinator.process_incident incident_id false w =
      (.ok (CoordResult.alreadyProcessed incident_id),
       { w with memGetCalls := w.memGetCalls + 1 }) := by
  simp [AgentCoordinator.process_incident, M.tryCatch, BaseAgent.get_memory,
    RedisClient.get_memory, M.run_bind, M.run_pure, hget, hmem]

/-- C1 witness: a concrete world holding a stored plan; the second call
short-circuits there. -/
theorem processIncident_already_processed_witness :
    (let env := mkEnv (fun _ => none) (fun _ => .timeout) (fun _ => none)
        (fun _ => .transportError "down")
     let w := World.init env
        [(get_agent_memory_key AgentType.PLANNER.value "i1" ++ ":" ++
            "action_plan", MemVal.plan samplePlan)]
     w.env.memGetOk w.memGetCalls = true ∧
     getA w.mem
       (get_agent_memory_key AgentType.PLANNER.value "i1" ++ ":" ++
         "action_plan") = some (MemVal.plan samplePlan) ∧
     AgentCoordinator.process_incident "i1" false w =
       (.ok (CoordResult.alreadyProcessed "i1"),
        { w with memGetCalls := w.memGetCalls + 1 })) :=
  ⟨rfl, by simp [World.init, getA],
   processIncident_already_processed _ "i1" (MemVal.plan samplePlan) rfl
     (by simp [World.init, getA])⟩

/-! ## C2 — retry bound, backoff trace and exhaustion error -/

/-- Loop invariant for the always-timeout provider: with `fuel` of `n`
attempts remaining, the loop performs exactly `fuel` further attempts,
sleeps `2^attempt` after each attempt except the overall last, and raises
the exhaustion message carrying the recorded timeout text. -/
theorem call_llm_attempts_all_timeout (n : Nat) :
    ∀ (fuel : Nat) (le : Option String) (w : World),
      (∀ i, w.env.llm i = .timeout) → fuel ≤ n →
      BaseAgent.call_llm_attempts n fuel le w =
        (.error (failMsg n (if fuel = 0 then le else some timeoutMsg)),
         { w with llmCalls := w.llmCalls + fuel,
                  sleeps := w.sleeps ++
                    (List.range' (n - fuel) (fuel - 1)).map (fun a => 2 ^ a) }) := by
  intro fuel
  induction fuel with
  | zero =>
      intro le w _h _hle
      simp [BaseAgent.call_llm_attempts, M.throw]
  | succ fuel ih =>
      intro le w h hle
      rcases Nat.eq_zero_or_pos fuel with hf | hf
      · subst hf
        simp only [BaseAgent.call_llm_attempts, M.run_bind,
          BaseAgent.llm_attempt, h]
        rw [if_neg (by omega)]
        simp only [M.run_bind, M.run_pure, M.throw]
        simp
      · simp only [BaseAgent.call_llm_attempts, M.run_bind,
          BaseAgent.llm_attempt, h]
        rw [if_pos (by omega)]
        simp only [M.run_bind, sleepM]
        have h0 : ∀ i,
            ({ w with llmCalls := w.llmCalls + 1,
                      sleeps := w.sleeps ++ [2 ^ (n - (fuel + 1))] } : World).env.llm i = .timeout := h
        rw [ih (some timeoutMsg) _ h0 (by omega)]
        have hfz : ¬ fuel = 0 := by omega
        have hsl : (w.sleeps ++ [2 ^ (n - (fuel + 1))]) ++
            List.map (fun a => 2 ^ a) (List.range' (n - fuel) (fuel - 1)) =
            w.sleeps ++
              List.map (fun a => 2 ^ a) (List.range' (n - (fuel + 1)) (fuel + 1 - 1)) := by
          rw [List.append_assoc]
          congr 1
          rw [List.singleton_append, ← List.map_cons]
          congr 1
          have h1 : n - fuel = (n - (fuel + 1)) + 1 := by omega
          have h2 : fuel + 1 - 1 = (fuel - 1) + 1 := by omega
          rw [h1, h2, List.range'_succ]
        have hc : w.llmCalls + 1 + fuel = w.llmCalls + (fuel + 1) := by omega
        simp only [if_neg hfz, hsl, hc]
        simp

/-- C2: against a provider that times out on every attempt,
`call_llm_with_retry` makes exactly `max_retries` attempts (the resolved
bound: a passed positive bound, else the configured default), sleeps
`2^attempt` seconds between consecutive attempts (trace
`[2^0, …, 2^(n-2)]`), and raises the exhaustion error whose text carries
the last error message. -/
theorem call_llm_with_retry_all_timeout
    (w : World) (mr : Option Nat)
    (h : ∀ i, w.env.llm i = .timeout) :
    BaseAgent.call_llm_with_retry mr w =
      (.error (failMsg (resolveRetries mr) (some timeoutMsg)),
       { w with llmCalls := w.llmCalls + resolveRetries mr,
                sleeps := w.sleeps ++
                  (List.range (resolveRetries mr - 1)).map (fun a => 2 ^ a) }) ∧
    (∃ p, failMsg (resolveRetries mr) (some timeoutMsg) = p ++ timeoutMsg) := by
  constructor
  · have hn : 1 ≤ resolveRetries mr := by
      rcases mr with _ | k
      · simp [resolveRetries, settings.agent_max_retries]
      · rcases k with _ | k
        · simp [resolveRetries, settings.agent_max_retries]
        · simp [resolveRetries]
    rw [BaseAgent.call_llm_with_retry,
      call_llm_attempts_all_timeout (resolveRetries mr) (resolveRetries mr)
        none w h le_rfl]
    rw [if_neg (by omega), Nat.sub_self, List.range_eq_range']
  · exact ⟨_, rfl⟩

/-- C2 witness: the default bound (3) with an always-timeout provider —
three attempts, backoff trace `[1, 2]`, exhaustion error text. -/
theorem call_llm_with_retry_all_timeout_witness :
    (let env := mkEnv (fun _ => none) (fun _ => .timeout) (fun _ => none)
        (fun _ => .created 0)
     let w := World.init env []
     (∀ i, w.env.llm i = .timeout) ∧
     BaseAgent.call_llm_with_retry none w =
       (.error "LLM call failed after 3 attempts: LLM call timed out after 30s",
        { w with llmCalls := 3, sleeps := [1, 2] })) := by
  refine ⟨fun _ => rfl, ?_⟩
  have h := (call_llm_with_retry_all_timeout
    (World.init (mkEnv (fun _ => none) (fun _ => .timeout) (fun _ => none)
      (fun _ => .created 0)) []) none (fun _ => rfl)).1
  rw [h]
  rfl

/-! ## C3 — only transport/timeout is retried; parse failures surface once -/

/-- C3: if the provider call succeeds on the current attempt,
`call_llm_with_retry` returns that text after exactly one attempt — a
success is never retried, and no backoff occurs; and for the
`call-then-parse` composition every stage uses, a undecodable response
text makes the stage raise `MalformedOutput` exactly once, with no further
provider attempt: the parse step is pure, so the same text
deterministically yields the same single failure. -/
theorem llm_success_parse_failure_not_retried
    (w : World) (t : String) (mr : Option Nat)
    (hsucc : w.env.llm w.llmCalls = .success t) :
    BaseAgent.call_llm_with_retry mr w =
      (.ok t, { w with llmCalls := w.llmCalls + 1 }) ∧
    (w.env.jsonLoads (extractJsonBlock t) = none →
      (BaseAgent.call_llm_with_retry mr >>= M.parseResp) w =
        (.error "Invalid JSON response from LLM",
         { w with llmCalls := w.llmCalls + 1 })) := by
  have hn : ∃ k, resolveRetries mr = k + 1 := by
    rcases mr with _ | k
    · exact ⟨2, rfl⟩
    · rcases k with _ | k
      · exact ⟨2, rfl⟩
      · exact ⟨k, rfl⟩
  obtain ⟨k, hk⟩ := hn
  have hrun : BaseAgent.call_llm_with_retry mr w =
      (.ok t, { w with llmCalls := w.llmCalls + 1 }) := by
    rw [BaseAgent.call_llm_with_retry]
    simp only [hk, BaseAgent.call_llm_attempts, M.run_bind,
      BaseAgent.llm_attempt, hsucc, M.run_pure]
  refine ⟨hrun, fun hparse => ?_⟩
  rw [M.run_bind, hrun]
  simp [M.parseResp, BaseAgent.parse_json_response, hparse]

/-- C3 witness: a provider that answers garbage on the first attempt; the
composition fails once with the malformed-output error and exactly one
provider call was made. -/
theorem llm_success_parse_failure_not_retried_witness :
    (let env := mkEnv (fun _ => none) (fun _ => .success "no json here")
        (fun _ => none) (fun _ => .created 0)
     let w := World.init env []
     w.env.llm w.llmCalls = .success "no json here" ∧
     w.env.jsonLoads (extractJsonBlock "no json here") = none ∧
     (BaseAgent.call_llm_with_retry none >>= M.parseResp) w =
       (.error "Invalid JSON response from LLM",
        { w with llmCalls := w.llmCalls + 1 })) :=
  ⟨rfl, rfl,
   (llm_success_parse_failure_not_retried
     (World.init (mkEnv (fun _ => none) (fun _ => .success "no json here")
       (fun _ => none) (fun _ => .created 0)) []) "no json here" none rfl).2 rfl⟩

/-! ## C4 — which store write failures are fatal (amended) -/

/-- C4 (amended): an audit-log write failure raises and is fatal to the
enclosing operation; a memory-store write failure and an event-bus publish
failure are caught inside the client and surface only as a `False` return
value — the enclosing operation continues with that write dropped. -/
theorem store_write_failure_fatality
    (w : World) :
    (∀ (a : AgentType) (step : String) (data : List (String × JVal))
        (iid wid : Option String),
      w.env.auditOk w.auditCalls = false →
      BaseAgent.log_reasoning a step data iid wid w =
        (.error "agent_logs insert failed",
         { w with auditCalls := w.auditCalls + 1 })) ∧
    (∀ (k : String) (v : MemVal),
      w.env.memSetOk w.memSetCalls = false →
      RedisClient.set_memory k v w =
        (.ok false, { w with memSetCalls := w.memSetCalls + 1 })) ∧
    (∀ (ch : String) (m : EventV),
      w.env.pubOk w.pubCalls = false →
      RedisClient.publish ch m w =
        (.ok false, { w with pubCalls := w.pubCalls + 1 })) := by
  refine ⟨fun a step data iid wid ha => ?_, fun k v hm => ?_, fun ch m hp => ?_⟩
  · simp [BaseAgent.log_reasoning, db.log_agent_activity, ha]
  · simp [RedisClient.set_memory, hm]
  · simp [RedisClient.publish, hp]

/-- C4 witness: a world whose next audit, memory and bus writes all fail;
the three behaviours follow by applying the theorem. -/
theorem store_write_failure_fatality_witness :
    (let env : Env :=
      { mkEnv (fun _ => none) (fun _ => .timeout) (fun _ => none)
          (fun _ => .created 0) with
        auditOk := fun _ => false
        memSetOk := fun _ => false
        pubOk := fun _ => false }
     let w := World.init env []
     w.env.auditOk w.auditCalls = false ∧
     w.env.memSetOk w.memSetCalls = false ∧
     w.env.pubOk w.pubCalls = false ∧
     BaseAgent.log_reasoning .PLANNER "ANALYSIS_START" [] none none w =
       (.error "agent_logs insert failed",
        { w with auditCalls := w.auditCalls + 1 }) ∧
     RedisClient.set_memory "k" (.plan samplePlan) w =
       (.ok false, { w with memSetCalls := w.memSetCalls + 1 }) ∧
     RedisClient.publish "agent:workflow" (.workflowStarted "i1") w =
       (.ok false, { w with pubCalls := w.pubCalls + 1 })) := by
  refine ⟨rfl, rfl, rfl, ?_, ?_, ?_⟩
  · exact (store_write_failure_fatality _).1 .PLANNER "ANALYSIS_START" [] none none rfl
  · exact (store_write_failure_fatality _).2.1 "k" (.plan samplePlan) rfl
  · exact (store_write_failure_fatality _).2.2 "agent:workflow" (.workflowStarted "i1") rfl

/-- C4 counterexample: a full Planner run whose memory write fails (all
other stores healthy) still returns the plan successfully — nothing is
raised — and nothing was stored: a memory-store write failure is not
fatal to the enclosing operation, contradicting the claim. -/
theorem memory_write_failure_not_fatal :
    (let env : Env :=
      { mkEnv (fun i => if i = "i1" then some (sampleIncident "i1") else none)
          (fun _ => .success "PLAN")
          (fun s => if s = "PLAN" then some (.planP (some samplePlan)) else none)
          (fun _ => .created 0) with
        memSetOk := fun _ => false }
     let r := PlannerAgent.analyze_incident "i1" (World.init env [])
     r.1 = .ok samplePlan ∧ (r.2).mem = [] ∧ (r.2).memSetCalls = 1) := by
  refine ⟨?_, ?_, ?_⟩ <;> rfl

/-! ## Shared run lemmas -/

/-- A provider success on the current attempt returns immediately with
exactly one further call consumed. -/
theorem call_llm_with_retry_success (w : World) (t : String) (mr : Option Nat)
    (hsucc : w.env.llm w.llmCalls = .success t) :
    BaseAgent.call_llm_with_retry mr w =
      (.ok t, { w with llmCalls := w.llmCalls + 1 }) := by
  have hn : ∃ k, resolveRetries mr = k + 1 := by
    rcases mr with _ | k
    · exact ⟨2, rfl⟩
    · rcases k with _ | k
      · exact ⟨2, rfl⟩
      · exact ⟨k, rfl⟩
  obtain ⟨k, hk⟩ := hn
  rw [BaseAgent.call_llm_with_retry]
  simp only [hk, BaseAgent.call_llm_attempts, M.run_bind,
    BaseAgent.llm_attempt, hsucc, M.run_pure]

/-- A successful audit write appends the entry and returns the row id. -/
theorem log_reasoning_ok (w : World) (a : AgentType) (step : String)
    (data : List (String × JVal)) (iid wid : Option String)
    (h : w.env.auditOk w.auditCalls = true) :
    BaseAgent.log_reasoning a step data iid wid w =
      (.ok w.audit.length,
       { w with auditCalls := w.auditCalls + 1,
                audit := w.audit ++ [⟨a.value, step, data, iid, wid⟩] }) := by
  simp [BaseAgent.log_reasoning, db.log_agent_activity, h]

/-- A successful memory write stores the value and returns True. -/
theorem set_memory_ok (w : World) (k : String) (v : MemVal)
    (h : w.env.memSetOk w.memSetCalls = true) :
    RedisClient.set_memory k v w =
      (.ok true, { w with memSetCalls := w.memSetCalls + 1,
                          mem := (k, v) :: w.mem }) := by
  simp [RedisClient.set_memory, h]

/-- A successful publish appends the event. -/
theorem publish_ok (w : World) (ch : String) (m : EventV)
    (h : w.env.pubOk w.pubCalls = true) :
    RedisClient.publish ch m w =
      (.ok true, { w with pubCalls := w.pubCalls + 1,
                          published := w.published ++ [(ch, m)] }) := by
  simp [RedisClient.publish, h]

/-- A successful conversation append stores the trimmed list. -/
theorem append_to_list_ok (w : World) (k : String) (v : ConvMsg) (n : Nat)
    (h : w.env.listOk w.listCalls = true) :
    RedisClient.append_to_list k v n w =
      (.ok true,
       { w with listCalls := w.listCalls + 1,
                lists := setL w.lists k (trimLast n (getL w.lists k ++ [v])) }) := by
  simp [RedisClient.append_to_list, h]

/-- A reachable memory read returns the stored value. -/
theorem get_memory_ok (w : World) (k : String)
    (h : w.env.memGetOk w.memGetCalls = true) :
    RedisClient.get_memory k w =
      (.ok (getA w.mem k), { w with memGetCalls := w.memGetCalls + 1 }) := by
  simp [RedisClient.get_memory, h]

/-- A failing memory read is caught and reported as absent. -/
theorem get_memory_fail (w : World) (k : String)
    (h : w.env.memGetOk w.memGetCalls = false) :
    RedisClient.get_memory k w =
      (.ok none, { w with memGetCalls := w.memGetCalls + 1 }) := by
  simp [RedisClient.get_memory, h]

/-- A failing list read is caught and reported as empty. -/
theorem get_list_fail (w : World) (k : String)
    (h : w.env.listOk w.listCalls = false) :
    RedisClient.get_list k w =
      (.ok [], { w with listCalls := w.listCalls + 1 }) := by
  simp [RedisClient.get_list, h]

/-! ## C5 — confidence range validation (validator modelled from the spec) -/

/-- C5: every payload the Analyst's explanation validation accepts has
confidence within [0, 1]; a payload with out-of-range confidence is
rejected as a validation failure; and `explainDecision` on such a payload
raises (after logging EXPLANATION_FAILED) instead of returning an
Explanation.  The pydantic validator lives in the absent `models.py` and
is modelled from the spec. -/
theorem explanation_confidence_in_range :
    (∀ (p : Payload) (e : Explanation), validateExplanation p = .ok e →
      0 ≤ e.confidence ∧ e.confidence ≤ 1) ∧
    (∀ ep : ExplanationPayload, ¬(0 ≤ ep.confidence ∧ ep.confidence ≤ 1) →
      validateExplanation (.explP ep) =
        .error "Explanation validation error: confidence out of range") ∧
    (∀ (w : World) (id : String) (ap : ActionPlan) (dr : DispatchResult)
        (inc : IncidentRec) (t : String) (ep : ExplanationPayload),
      (∀ i, w.env.auditOk i = true) →
      w.env.incidents id = some inc →
      w.env.llm w.llmCalls = .success t →
      w.env.jsonLoads (extractJsonBlock t) = some (.explP ep) →
      ¬(0 ≤ ep.confidence ∧ ep.confidence ≤ 1) →
      (AnalystAgent.explain_decision id ap dr w).1 =
        .error "Explanation validation error: confidence out of range") := by
  refine ⟨?_, ?_, ?_⟩
  · intro p e hok
    match p with
    | .explP ep =>
        by_cases hc : 0 ≤ ep.confidence ∧ ep.confidence ≤ 1
        · rw [validateExplanation, if_pos hc] at hok
          cases hok
          exact hc
        · rw [validateExplanation, if_neg hc] at hok
          cases hok
    | .planP p => cases hok
    | .dispatchP d => cases hok
    | .otherP => cases hok
  · intro ep hc
    rw [validateExplanation, if_neg hc]
  · intro w id ap dr inc t ep haud hinc hllm hparse hconf
    simp only [AnalystAgent.explain_decision, M.tryCatch, M.run_bind,
      log_reasoning_ok, haud, db.get_incident_context, hinc, M.run_pure]
    rw [call_llm_with_retry_success
      ({ w with auditCalls := w.auditCalls + 1,
                audit := w.audit ++
                  [⟨AgentType.ANALYST.value, "EXPLANATION_START",
                    [("incident_id", JVal.s id)], some id, none⟩] }) t none hllm]
    simp only [M.run_bind, M.parseResp, BaseAgent.parse_json_response, hparse,
      validateExplanation, if_neg hconf, M.ofExcept, M.throw, M.run_pure,
      log_reasoning_ok, haud]

/-- C5 witness: a payload with confidence 1.5 is rejected and the Analyst
stage raises on it. -/
theorem explanation_confidence_in_range_witness :
    (let badEp : ExplanationPayload := ⟨"why", [], [], 3/2⟩
     let env := mkEnv (fun i => if i = "i1" then some (sampleIncident "i1") else none)
        (fun _ => .success "EXPL")
        (fun s => if s = "EXPL" then some (.explP ⟨"why", [], [], 3/2⟩) else none)
        (fun _ => .created 0)
     let w := World.init env []
     ¬((0:ℚ) ≤ 3/2 ∧ (3/2:ℚ) ≤ 1) ∧
     validateExplanation (.explP badEp) =
       .error "Explanation validation error: confidence out of range" ∧
     (AnalystAgent.explain_decision "i1" samplePlan sampleDispatch w).1 =
       .error "Explanation validation error: confidence out of range") := by
  refine ⟨by norm_num, ?_, ?_⟩
  · exact explanation_confidence_in_range.2.1 ⟨"why", [], [], 3/2⟩ (by norm_num)
  · exact explanation_confidence_in_range.2.2
      (World.init (mkEnv (fun i => if i = "i1" then some (sampleIncident "i1") else none)
        (fun _ => .success "EXPL")
        (fun s => if s = "EXPL" then some (.explP ⟨"why", [], [], 3/2⟩) else none)
        (fun _ => .created 0)) [])
      "i1" samplePlan sampleDispatch (sampleIncident "i1") "EXPL"
      ⟨"why", [], [], 3/2⟩ (fun _ => rfl) rfl rfl rfl (by norm_num)

/-! ## C6 — partial work-order submission failure is non-fatal -/

/-- The created-order ids collected from `k` submissions scheduled from
position `c`: exactly the 201 responses, in order. -/
def successesFrom (wo : Nat → WOOutcome) : Nat → Nat → List Nat
  | _, 0 => []
  | c, k + 1 =>
      match wo c with
      | .created oid => oid :: successesFrom wo (c + 1) k
      | .httpError _ => successesFrom wo (c + 1) k
      | .transportError _ => successesFrom wo (c + 1) k

/-- Whether a scheduled outcome is a successful (201) submission. -/
def WOOutcome.isCreated : WOOutcome → Bool
  | .created _ => true
  | .httpError _ => false
  | .transportError _ => false

/-- Helper: the work-order submission loop never raises and collects
exactly the successful submissions, consuming one schedule slot each. -/
theorem create_work_orders_run :
    ∀ (wos : List WorkOrderRequest) (incident_id : String) (w : World),
      DispatcherAgent.create_work_orders incident_id wos w =
        (.ok (successesFrom w.env.workOrder w.woCalls wos.length),
         { w with woCalls := w.woCalls + wos.length }) := by
  intro wos
  induction wos with
  | nil =>
      intro incident_id w
      simp [DispatcherAgent.create_work_orders, successesFrom, M.run_pure]
  | cons wo rest ih =>
      intro incident_id w
      simp only [DispatcherAgent.create_work_orders, M.run_bind,
        DispatcherAgent.wo_attempt, successesFrom, List.length_cons]
      cases hwo : w.env.workOrder w.woCalls with
      | created oid =>
          simp only [M.run_bind, ih, M.run_pure, hwo]
          rw [show w.woCalls + 1 + rest.length = w.woCalls + (rest.length + 1)
            from by omega]
      | httpError st =>
          simp only [ih, hwo]
          rw [show w.woCalls + 1 + rest.length = w.woCalls + (rest.length + 1)
            from by omega]
      | transportError m =>
          simp only [ih, hwo]
          rw [show w.woCalls + 1 + rest.length = w.woCalls + (rest.length + 1)
            from by omega]

/-- Helper: the collected created orders are exactly as many as the
successful submissions in the consumed schedule range. -/
theorem successesFrom_length :
    ∀ (wo : Nat → WOOutcome) (c k : Nat),
      (successesFrom wo c k).length =
        ((List.range k).filter (fun i => (wo (c + i)).isCreated)).length := by
  intro wo c k
  induction k generalizing c with
  | zero => simp [successesFrom]
  | succ k ih =>
      rw [List.range_succ_eq_map]
      cases hwo : wo c with
      | created oid =>
          simp [successesFrom, hwo, ih (c + 1), List.filter_cons,
            WOOutcome.isCreated, List.filter_map, Function.comp_def,
            Nat.succ_eq_add_one, Nat.add_comm, Nat.add_assoc,
            Nat.add_left_comm]
      | httpError st =>
          simp [successesFrom, hwo, ih (c + 1), List.filter_cons,
            WOOutcome.isCreated, List.filter_map, Function.comp_def,
            Nat.succ_eq_add_one, Nat.add_comm, Nat.add_assoc,
            Nat.add_left_comm]
      | transportError m =>
          simp [successesFrom, hwo, ih (c + 1), List.filter_cons,
            WOOutcome.isCreated, List.filter_map, Function.comp_def,
            Nat.succ_eq_add_one, Nat.add_comm, Nat.add_assoc,
            Nat.add_left_comm]

/-- Helper: a fully healthy dispatch run (incident present, provider
succeeds, payload validates, stores up) completes with the validated
result: the audit gains DISPATCH_START, UNITS_FOUND and
DISPATCH_COMPLETED recording the created-count, the result is stored, a
conversation entry is appended, and partial submission failures inside the
work-order loop do not abort anything. -/
theorem dispatch_success_run (w : World) (id : String) (ap : ActionPlan)
    (inc : IncidentRec) (t : String) (d : DispatchResult)
    (haud : ∀ i, w.env.auditOk i = true)
    (hmem : ∀ i, w.env.memSetOk i = true)
    (hlist : ∀ i, w.env.listOk i = true)
    (hinc : w.env.incidents id = some inc)
    (hllm : w.env.llm w.llmCalls = .success t)
    (hparse : w.env.jsonLoads (extractJsonBlock t) =
      some (.dispatchP (some d))) :
    DispatcherAgent.dispatch id ap w =
      (.ok d,
       { w with
         auditCalls := w.auditCalls + 1 + 1 + 1
         llmCalls := w.llmCalls + 1
         woCalls := w.woCalls + d.work_orders.length
         memSetCalls := w.memSetCalls + 1
         listCalls := w.listCalls + 1
         audit := w.audit ++
           [⟨AgentType.DISPATCHER.value, "DISPATCH_START",
             [("incident_id", JVal.s id),
              ("action_plan_priority", JVal.s ap.priority.value)],
             some id, none⟩] ++
           [⟨AgentType.DISPATCHER.value, "UNITS_FOUND",
             [("available_units_count",
               JVal.n DispatcherAgent.get_simulated_units.length)],
             some id, none⟩] ++
           [⟨AgentType.DISPATCHER.value, "DISPATCH_COMPLETED",
             [("dispatch_result", JVal.dispatchV d),
              ("work_orders_created",
               JVal.n (successesFrom w.env.workOrder w.woCalls
                 d.work_orders.length).length),
              ("incident_id", JVal.s id)], some id, none⟩]
         mem := (get_agent_memory_key AgentType.DISPATCHER.value id ++ ":" ++
             "dispatch_result", MemVal.dispatch d) :: w.mem
         lists := setL w.lists (get_conversation_key id)
           (trimLast 100 (getL w.lists (get_conversation_key id) ++
             [ConvMsg.dispatcherMsg d.assignments.length
               (successesFrom w.env.workOrder w.woCalls
                 d.work_orders.length).length])) }) := by
  simp only [DispatcherAgent.dispatch, M.tryCatch, M.run_bind,
    log_reasoning_ok, haud, db.get_incident_context, hinc,
    DispatcherAgent.find_available_units, M.run_pure]
  rw [call_llm_with_retry_success
    ({ w with
       auditCalls := w.auditCalls + 1 + 1
       audit := w.audit ++
         [⟨AgentType.DISPATCHER.value, "DISPATCH_START",
           [("incident_id", JVal.s id),
            ("action_plan_priority", JVal.s ap.priority.value)],
           some id, none⟩] ++
         [⟨AgentType.DISPATCHER.value, "UNITS_FOUND",
           [("available_units_count",
             JVal.n DispatcherAgent.get_simulated_units.length)],
           some id, none⟩] }) t none hllm]
  simp only [M.run_bind, M.parseResp, BaseAgent.parse_json_response, hparse,
    M.ofExcept, validateDispatchResult, M.run_pure, M.pure,
    create_work_orders_run, BaseAgent.store_memory, set_memory_ok, hmem,
    log_reasoning_ok, haud, BaseAgent.add_to_conversation,
    append_to_list_ok, hlist]

/-- C6: `_create_work_orders` never raises — every submission failure is
skipped and each submission consumes one slot; the returned created orders
are exactly the successful submissions, so the recorded created-count
equals their number; and in the spec's concrete scenario (3
WorkOrderRequests with the fulfillment failing on the 2nd) `dispatch`
completes without raising, the DISPATCH_COMPLETED audit entry records
created-count 2, and the conversation entry records 2 created orders. -/
theorem work_order_partial_failure_non_fatal :
    (∀ (wos : List WorkOrderRequest) (incident_id : String) (w : World),
      DispatcherAgent.create_work_orders incident_id wos w =
        (.ok (successesFrom w.env.workOrder w.woCalls wos.length),
         { w with woCalls := w.woCalls + wos.length })) ∧
    (∀ (wo : Nat → WOOutcome) (c k : Nat),
      (successesFrom wo c k).length =
        ((List.range k).filter (fun i => (wo (c + i)).isCreated)).length) ∧
    (let env := mkEnv
        (fun i => if i = "i1" then some (sampleIncident "i1") else none)
        (fun _ => .success "DISP")
        (fun s => if s = "DISP" then some (.dispatchP (some sampleDispatch))
                  else none)
        (fun i => if i = 1 then .httpError 500 else .created i)
     let r := DispatcherAgent.dispatch "i1" samplePlan (World.init env [])
     r.1 = .ok sampleDispatch ∧
     (r.2).audit.map (fun a => a.step) =
       ["DISPATCH_START", "UNITS_FOUND", "DISPATCH_COMPLETED"] ∧
     ((r.2).audit.getLast?.map (fun a => a.data)) =
       some [("dispatch_result", .dispatchV sampleDispatch),
             ("work_orders_created", .n 2), ("incident_id", .s "i1")] ∧
     getL (r.2).lists (get_conversation_key "i1") = [.dispatcherMsg 1 2]) := by
  refine ⟨create_work_orders_run, successesFrom_length, ?_⟩
  have hrun := dispatch_success_run
    (World.init (mkEnv
      (fun i => if i = "i1" then some (sampleIncident "i1") else none)
      (fun _ => .success "DISP")
      (fun s => if s = "DISP" then some (.dispatchP (some sampleDispatch))
                else none)
      (fun i => if i = 1 then .httpError 500 else .created i)) [])
    "i1" samplePlan (sampleIncident "i1") "DISP" sampleDispatch
    (fun _ => rfl) (fun _ => rfl) (fun _ => rfl) rfl rfl rfl
  refine ⟨?_, ?_, ?_, ?_⟩ <;> rw [hrun] <;> rfl

/-! ## C7 — Planner behaviour on an absent incident (amended) -/

/-- Helper: a Planner run on an absent incident (audit store healthy)
raises the not-found error after logging ANALYSIS_START, then
CONTEXT_GATHERED (for the empty context), then ANALYSIS_FAILED; no
provider call is made and nothing is stored. -/
theorem analyze_incident_absent_run (w : World) (id : String)
    (haud : ∀ i, w.env.auditOk i = true)
    (hinc : w.env.incidents id = none) :
    PlannerAgent.analyze_incident id w =
      (.error ("Incident " ++ id ++ " not found"),
       { w with
         auditCalls := w.auditCalls + 1 + 1 + 1
         audit := w.audit ++
           [⟨AgentType.PLANNER.value, "ANALYSIS_START",
             [("incident_id", JVal.s id)], some id, none⟩] ++
           [⟨AgentType.PLANNER.value, "CONTEXT_GATHERED",
             [("context_summary",
               JVal.obj (PlannerAgent.summarize_context none))],
             some id, none⟩] ++
           [⟨AgentType.PLANNER.value, "ANALYSIS_FAILED",
             [("error", JVal.s ("Incident " ++ id ++ " not found")),
              ("incident_id", JVal.s id)], some id, none⟩] }) := by
  simp only [PlannerAgent.analyze_incident, M.tryCatch, M.run_bind,
    log_reasoning_ok, haud, PlannerAgent.gather_context,
    db.get_incident_context, hinc, M.run_pure, M.pure, M.throw]

/-- C7 (amended): for an absent incident the Planner fails with the
not-found error before any provider call — the provider counter is
untouched and no plan is stored — but the abort happens only after the
CONTEXT_GATHERED entry (with the empty-context summary) is logged, so the
audit trail is ANALYSIS_START, CONTEXT_GATHERED, ANALYSIS_FAILED rather
than only ANALYSIS_START and ANALYSIS_FAILED. -/
theorem planner_absent_incident_trail (w : World) (id : String)
    (haud : ∀ i, w.env.auditOk i = true)
    (hinc : w.env.incidents id = none) :
    (PlannerAgent.analyze_incident id w).1 =
      .error ("Incident " ++ id ++ " not found") ∧
    ((PlannerAgent.analyze_incident id w).2).llmCalls = w.llmCalls ∧
    ((PlannerAgent.analyze_incident id w).2).mem = w.mem ∧
    ((PlannerAgent.analyze_incident id w).2).audit.map (fun a => a.step) =
      w.audit.map (fun a => a.step) ++
        ["ANALYSIS_START", "CONTEXT_GATHERED", "ANALYSIS_FAILED"] := by
  rw [analyze_incident_absent_run w id haud hinc]
  refine ⟨rfl, rfl, rfl, ?_⟩
  simp

/-- C7 witness: the amended behaviour at a concrete absent incident. -/
theorem planner_absent_incident_trail_witness :
    (let env := mkEnv (fun _ => none) (fun _ => .timeout) (fun _ => none)
        (fun _ => .created 0)
     let w := World.init env []
     (∀ i, w.env.auditOk i = true) ∧
     w.env.incidents "ghost" = none ∧
     ((PlannerAgent.analyze_incident "ghost" w).1 =
       .error "Incident ghost not found" ∧
      ((PlannerAgent.analyze_incident "ghost" w).2).llmCalls = 0 ∧
      ((PlannerAgent.analyze_incident "ghost" w).2).mem = [] ∧
      ((PlannerAgent.analyze_incident "ghost" w).2).audit.map (fun a => a.step) =
        [] ++ ["ANALYSIS_START", "CONTEXT_GATHERED", "ANALYSIS_FAILED"])) :=
  ⟨fun _ => rfl, rfl,
   planner_absent_incident_trail
     (World.init (mkEnv (fun _ => none) (fun _ => .timeout) (fun _ => none)
       (fun _ => .created 0)) []) "ghost" (fun _ => rfl) rfl⟩

/-- C7 counterexample: for the absent incident "ghost" the audit trail
does contain a CONTEXT_GATHERED entry — between ANALYSIS_START and
ANALYSIS_FAILED — so the claim that no CONTEXT_GATHERED entry exists for
an absent incident is false (the abort does still precede any provider
call). -/
theorem planner_absent_incident_counterexample :
    (let env := mkEnv (fun _ => none) (fun _ => .timeout) (fun _ => none)
        (fun _ => .created 0)
     let r := PlannerAgent.analyze_incident "ghost" (World.init env [])
     (r.2).audit.map (fun a => a.step) =
       ["ANALYSIS_START", "CONTEXT_GATHERED", "ANALYSIS_FAILED"] ∧
     ((r.2).audit.map (fun a => a.step)).count "CONTEXT_GATHERED" = 1 ∧
     r.1 = .error "Incident ghost not found" ∧
     (r.2).llmCalls = 0) := by
  have h := analyze_incident_absent_run
    (World.init (mkEnv (fun _ => none) (fun _ => .timeout) (fun _ => none)
      (fun _ => .created 0)) []) "ghost" (fun _ => rfl) rfl
  refine ⟨?_, ?_, ?_, ?_⟩ <;> rw [h] <;> rfl

/-! ## C8 — distance/ETA formulas and sorting (amended) -/

/-- C8 (amended): the computed distance is the planar approximation
`sqrt(dx² + dy²)` with `dx = Δlon·111000·cos(radians lat₁)` and
`dy = Δlat·111000`; the ETA is `max(5, int(dist/(30000/60)))` — the
quotient is truncated to an integer *before* the floor of 5 applies (the
claim's formula omits the truncation); a candidate at coordinates
identical to the incident's yields distance 0 and eta 5; and the ranked
candidates are sorted ascending by distance (a permutation of the
annotated candidates). -/
theorem distance_eta_and_sorting :
    (∀ l1 l2 : GeoPoint, DispatcherAgent.calculate_distance l1 l2 =
      Real.sqrt (((l1.lon - l2.lon) * 111000 * Real.cos (radians l1.lat)) ^ 2 +
        ((l1.lat - l2.lat) * 111000) ^ 2)) ∧
    (∀ d : ℝ, DispatcherAgent.estimate_travel_time d =
      max 5 ⌊d / (30000 / 60)⌋) ∧
    (∀ p : GeoPoint, DispatcherAgent.calculate_distance p p = 0) ∧
    (∀ p : GeoPoint, DispatcherAgent.estimate_travel_time
      (DispatcherAgent.calculate_distance p p) = 5) ∧
    (∀ (inc : GeoPoint) (units : List UnitG),
      List.Sorted distLE (DispatcherAgent.rank_units inc units)) ∧
    (∀ (inc : GeoPoint) (units : List UnitG),
      (DispatcherAgent.rank_units inc units).Perm
        (units.map (DispatcherAgent.annotate_unit inc))) := by
  have hzero : ∀ p : GeoPoint, DispatcherAgent.calculate_distance p p = 0 := by
    intro p
    simp [DispatcherAgent.calculate_distance]
  refine ⟨fun l1 l2 => rfl, fun d => rfl, hzero, ?_, ?_, ?_⟩
  · intro p
    rw [hzero p]
    simp [DispatcherAgent.estimate_travel_time]
  · intro inc units
    exact List.sorted_insertionSort distLE _
  · intro inc units
    exact List.perm_insertionSort distLE _

/-- C8 counterexample: an incident at `[0, 13/444]` and a unit at
`[0, 0]` are 3250 m apart; the code's ETA is `max(5, int(6.5)) = 6`
minutes while the claim's formula `max(5, dist/(30000/60))` gives 6.5 —
the claim's ETA formula does not match the code at this input. -/
theorem eta_truncation_counterexample :
    DispatcherAgent.calculate_distance ⟨0, 13/444⟩ ⟨0, 0⟩ = 3250 ∧
    DispatcherAgent.estimate_travel_time
      (DispatcherAgent.calculate_distance ⟨0, 13/444⟩ ⟨0, 0⟩) = 6 ∧
    claimed_eta (DispatcherAgent.calculate_distance ⟨0, 13/444⟩ ⟨0, 0⟩) =
      13 / 2 ∧
    ((6 : ℤ) : ℝ) ≠ 13 / 2 := by
  have hd : DispatcherAgent.calculate_distance ⟨0, 13/444⟩ ⟨0, 0⟩ = 3250 := by
    rw [DispatcherAgent.calculate_distance]
    have h1 : ((⟨0, 13/444⟩ : GeoPoint).lon - (⟨0, 0⟩ : GeoPoint).lon) * 111000 *
        Real.cos (radians (⟨0, 13/444⟩ : GeoPoint).lat) = 0 := by
      simp
    have h2 : ((⟨0, 13/444⟩ : GeoPoint).lat - (⟨0, 0⟩ : GeoPoint).lat) * 111000 =
        3250 := by
      show ((13/444 : ℝ) - 0) * 111000 = 3250
      norm_num
    rw [h1, h2]
    rw [show (0:ℝ) ^ 2 + (3250:ℝ) ^ 2 = 3250 ^ 2 by ring]
    exact Real.sqrt_sq (by norm_num)
  refine ⟨hd, ?_, ?_, by norm_num⟩
  · rw [hd, DispatcherAgent.estimate_travel_time]
    have hq : (3250 : ℝ) / (30000 / 60) = 13 / 2 := by norm_num
    show max 5 ⌊(3250 : ℝ) / (30000 / 60)⌋ = 6
    rw [hq]
    rw [show ⌊(13/2 : ℝ)⌋ = 6 from Int.floor_eq_iff.mpr (by norm_num)]
    decide
  · rw [hd, claimed_eta]
    rw [show (3250 : ℝ) / (30000 / 60) = 13 / 2 by norm_num]
    exact max_eq_right (by norm_num)

/-! ## C9 — the severity-pattern threshold -/

/-- Sum of the counts of the keys satisfying `P`. -/
def keySum (P : String → Bool) (xs : List (String × Nat)) : Nat :=
  ((xs.filter (fun p => P p.1)).map Prod.snd).sum

theorem foldl_add_snd :
    ∀ (xs : List (String × Nat)) (a : Nat),
      xs.foldl (fun acc p => acc + p.2) a = a + (xs.map Prod.snd).sum := by
  intro xs
  induction xs with
  | nil => intro a; simp
  | cons p rest ih => intro a; simp [ih]; omega

theorem keySum_cons (P : String → Bool) (p : String × Nat)
    (xs : List (String × Nat)) :
    keySum P (p :: xs) = (if P p.1 then p.2 else 0) + keySum P xs := by
  by_cases h : P p.1 <;> simp [keySum, List.filter_cons, h]

theorem keySum_append (P : String → Bool) (xs ys : List (String × Nat)) :
    keySum P (xs ++ ys) = keySum P xs + keySum P ys := by
  simp [keySum, List.filter_append]

/-- Incrementing the (unique, present) key `k` adds 1 to the filtered sum
exactly when `P k`. -/
theorem keySum_map_incr (P : String → Bool) (k : String) :
    ∀ acc : List (String × Nat), (acc.map Prod.fst).Nodup →
      acc.any (fun p => p.1 = k) = true →
      keySum P (acc.map (fun p => if p.1 = k then (p.1, p.2 + 1) else p)) =
        keySum P acc + (if P k then 1 else 0) := by
  intro acc
  induction acc with
  | nil => intro _ hmem; simp at hmem
  | cons p rest ih =>
      intro hnd hmem
      rw [List.map_cons] at hnd
      have hnd' := List.nodup_cons.mp hnd
      by_cases hp : p.1 = k
      · have hrest : ∀ q ∈ rest, ¬(q.1 = k) := by
          intro q hq hqk
          refine hnd'.1 ?_
          rw [hp, ← hqk]
          exact List.mem_map_of_mem Prod.fst hq
        have hmap : rest.map (fun p => if p.1 = k then (p.1, p.2 + 1) else p) =
            rest := by
          rw [show rest = rest.map id by simp]
          rw [List.map_map]
          apply List.map_congr_left
          intro q hq
          simp [hrest q (by simpa using hq)]
        simp only [List.map_cons, hmap, if_pos hp]
        rw [keySum_cons, keySum_cons]
        by_cases hP : P p.1
        · rw [hp] at hP
          simp [hp, hP]
          omega
        · rw [hp] at hP
          simp [hp, hP]
      · have hmem' : rest.any (fun p => p.1 = k) = true := by
          rcases List.any_eq_true.mp hmem with ⟨q, hq, hqk⟩
          rcases List.mem_cons.mp hq with hq | hq
          · exact absurd (by simpa [hq] using hqk) hp
          · exact List.any_eq_true.mpr ⟨q, hq, hqk⟩
        simp only [List.map_cons, if_neg hp]
        rw [keySum_cons, keySum_cons, ih hnd'.2 hmem']
        omega

/-- One dict update changes the filtered sum by 1 exactly when the
incident's key satisfies `P`. -/
theorem keySum_countsStep (P : String → Bool) (f : IncidentRec → Option String)
    (i : IncidentRec) (acc : List (String × Nat))
    (hnd : (acc.map Prod.fst).Nodup) :
    keySum P (countsStep f acc i) =
      keySum P acc +
        (match f i with
         | some k => if P k then 1 else 0
         | none => 0) := by
  rw [countsStep]
  cases hf : f i with
  | none => simp
  | some k =>
      cases hmem : acc.any (fun p => p.1 = k) with
      | true =>
          simp only [hmem, if_true]
          exact keySum_map_incr P k acc hnd hmem
      | false =>
          simp only [hmem, Bool.false_eq_true, if_false]
          rw [keySum_append]
          by_cases hP : P k <;> simp [keySum, hP]

/-- The step preserves distinctness of the dict keys. -/
theorem countsStep_keys_nodup (f : IncidentRec → Option String)
    (i : IncidentRec) (acc : List (String × Nat))
    (hnd : (acc.map Prod.fst).Nodup) :
    ((countsStep f acc i).map Prod.fst).Nodup := by
  rw [countsStep]
  cases hf : f i with
  | none => exact hnd
  | some k =>
      cases hmem : acc.any (fun p => p.1 = k) with
      | true =>
          simp only [hmem, if_true]
          have : (acc.map (fun p => if p.1 = k then (p.1, p.2 + 1) else p)).map
              Prod.fst = acc.map Prod.fst := by
            rw [List.map_map]
            apply List.map_congr_left
            intro q _
            by_cases hq : q.1 = k <;> simp [hq]
          rw [this]
          exact hnd
      | false =>
          simp only [hmem, Bool.false_eq_true, if_false, List.map_append]
          have hk : k ∉ acc.map Prod.fst := by
            intro hkmem
            rcases List.mem_map.mp hkmem with ⟨q, hq, hqk⟩
            have : acc.any (fun p => p.1 = k) = true :=
              List.any_eq_true.mpr ⟨q, hq, by simp [hqk]⟩
            rw [hmem] at this
            exact Bool.noConfusion this
          simp [List.nodup_append, hnd, hk]

/-- The filtered sum over the accumulated dict counts the incidents whose
key satisfies `P`. -/
theorem keySum_countsBy_fold (P : String → Bool)
    (f : IncidentRec → Option String) :
    ∀ (l : List IncidentRec) (acc : List (String × Nat)),
      (acc.map Prod.fst).Nodup →
      keySum P (l.foldl (countsStep f) acc) =
        keySum P acc +
          l.countP (fun i =>
            match f i with
            | some k => P k
            | none => false) := by
  intro l
  induction l with
  | nil => intro acc _; simp
  | cons i rest ih =>
      intro acc hnd
      rw [List.foldl_cons, ih _ (countsStep_keys_nodup f i acc hnd),
        keySum_countsStep P f i acc hnd, List.countP_cons]
      cases hf : f i <;> simp [hf] <;> omega

theorem keySum_countsBy (P : String → Bool)
    (f : IncidentRec → Option String) (l : List IncidentRec) :
    keySum P (countsBy f l) =
      l.countP (fun i =>
        match f i with
        | some k => P k
        | none => false) := by
  rw [countsBy, keySum_countsBy_fold P f l [] (by simp)]
  simp [keySum]

/-- The step never shrinks the dict. -/
theorem countsStep_length_ge (f : IncidentRec → Option String)
    (i : IncidentRec) (acc : List (String × Nat)) :
    acc.length ≤ (countsStep f acc i).length := by
  rw [countsStep]
  cases f i with
  | none => exact le_rfl
  | some k =>
      by_cases hmem : acc.any (fun p => p.1 = k) = true
      · simp [hmem]
      · simp [hmem]

theorem countsFold_length_ge (f : IncidentRec → Option String) :
    ∀ (l : List IncidentRec) (acc : List (String × Nat)),
      acc.length ≤ (l.foldl (countsStep f) acc).length := by
  intro l
  induction l with
  | nil => intro acc; exact le_rfl
  | cons i rest ih =>
      intro acc
      exact le_trans (countsStep_length_ge f i acc) (ih _)

/-- With a total key function, a non-empty incident list yields a
non-empty dict. -/
theorem countsBy_not_isEmpty (f : IncidentRec → Option String)
    (hf : ∀ i, (f i).isSome) (l : List IncidentRec) (hne : l ≠ []) :
    (countsBy f l).isEmpty = false := by
  cases l with
  | nil => exact absurd rfl hne
  | cons i rest =>
      rw [countsBy, List.foldl_cons]
      have h1 : 1 ≤ (countsStep f [] i).length := by
        rw [countsStep]
        cases hfi : f i with
        | none =>
            have := hf i
            rw [hfi] at this
            simp at this
        | some k => simp
      have := le_trans h1 (countsFold_length_ge f rest (countsStep f [] i))
      cases hres : rest.foldl (countsStep f) (countsStep f [] i) with
      | nil => rw [hres] at this; simp at this
      | cons a b => rfl

/-- The exact-rational threshold comparison of the source is the integer
comparison of the claim. -/
theorem rat_threshold (c n : ℕ) :
    ((c : ℚ) > (n : ℚ) * (3 / 10)) ↔ 10 * c > 3 * n := by
  rw [gt_iff_lt, gt_iff_lt]
  rw [show (n : ℚ) * (3 / 10) = ((3 * n : ℕ) : ℚ) / 10 by push_cast; ring]
  rw [div_lt_iff (by norm_num : (0 : ℚ) < 10)]
  rw [show ((c : ℚ) * 10) = ((10 * c : ℕ) : ℚ) by push_cast; ring]
  exact Nat.cast_lt

/-- An incident with the given severity (for the synthetic test sets). -/
def sevInc (s : String) : IncidentRec :=
  ⟨"x", "WASTE_OVERFLOW", s, "ACTIVE", none, none, "t"⟩

/-- Helper: the severity pattern is present iff the CRITICAL+HIGH count
strictly exceeds 30% of the total. -/
theorem severity_pattern_mem (l : List IncidentRec) (hne : l ≠ []) :
    ((AnalystAgent.identify_patterns l).any
      (fun p => p.ptype = "high_severity_trend")) = true ↔
      10 * l.countP
          (fun i => i.severity = "CRITICAL" ∨ i.severity = "HIGH") >
        3 * l.length := by
  have hse : (countsBy (fun i => some i.severity) l).isEmpty = false :=
    countsBy_not_isEmpty (fun i => some i.severity) (fun i => rfl) l hne
  have hcc : ((countsBy (fun i => some i.severity) l).filter
        (fun p => p.1 = "CRITICAL" ∨ p.1 = "HIGH")).foldl
          (fun acc p => acc + p.2) 0 =
      l.countP (fun i => i.severity = "CRITICAL" ∨ i.severity = "HIGH") := by
    rw [foldl_add_snd]
    have := keySum_countsBy
      (fun k => decide (k = "CRITICAL" ∨ k = "HIGH"))
      (fun i => some i.severity) l
    simpa [keySum] using this
  rw [AnalystAgent.identify_patterns]
  simp only [hse, Bool.false_eq_true, if_false, hcc]
  by_cases hcond :
      ((l.countP (fun i => i.severity = "CRITICAL" ∨ i.severity = "HIGH") : ℚ) >
        (l.length : ℚ) * (3 / 10))
  · rw [if_pos hcond]
    rw [iff_true_right ((rat_threshold _ _).mp hcond)]
    split <;> (try split) <;> (try split) <;> simp
  · rw [if_neg hcond]
    rw [iff_false_right (fun hn => hcond ((rat_threshold _ _).mpr hn))]
    split <;> (try split) <;> (try split) <;> simp

/-- Helper: with incidents present, `analyze_patterns` reports exactly the
identified patterns (with the templated insights and recommendations) and
logs PATTERN_ANALYSIS. -/
theorem analyze_patterns_report (w : World) (zone : Option String)
    (hrs : Nat) (incidents : List IncidentRec) (hne : incidents ≠ [])
    (hrec : w.env.recent zone 50 = incidents)
    (haud : ∀ i, w.env.auditOk i = true) :
    AnalystAgent.analyze_patterns zone hrs w =
      (.ok (.report (AnalystAgent.identify_patterns incidents)
          (AnalystAgent.generate_insights
            (AnalystAgent.identify_patterns incidents))
          (AnalystAgent.create_recommendations
            (AnalystAgent.identify_patterns incidents))
          incidents.length hrs),
       { w with
         auditCalls := w.auditCalls + 1
         audit := w.audit ++
           [⟨AgentType.ANALYST.value, "PATTERN_ANALYSIS",
             [("incidents_analyzed", JVal.n incidents.length)],
             none, none⟩] }) := by
  have hie : incidents.isEmpty = false := by
    cases incidents with
    | nil => exact absurd rfl hne
    | cons a b => rfl
  simp only [AnalystAgent.analyze_patterns, M.run_bind,
    db.get_recent_incidents, hrec, hie, Bool.false_eq_true, if_false,
    log_reasoning_ok, haud, M.run_pure, M.pure]

set_option maxRecDepth 100000 in
/-- C9: for every non-empty incident set the severity pattern is emitted
iff the CRITICAL+HIGH count strictly exceeds 30% of the total (exact
arithmetic); a 100-incident set with 31 CRITICAL triggers it and one with
29 does not; and `analyzePatterns` reports exactly the identified
patterns. -/
theorem severity_pattern_threshold :
    (∀ l : List IncidentRec, l ≠ [] →
      (((AnalystAgent.identify_patterns l).any
        (fun p => p.ptype = "high_severity_trend")) = true ↔
        10 * l.countP
            (fun i => i.severity = "CRITICAL" ∨ i.severity = "HIGH") >
          3 * l.length)) ∧
    ((AnalystAgent.identify_patterns
        (List.replicate 31 (sevInc "CRITICAL") ++
         List.replicate 69 (sevInc "LOW"))).any
      (fun p => p.ptype = "high_severity_trend")) = true ∧
    ((AnalystAgent.identify_patterns
        (List.replicate 29 (sevInc "CRITICAL") ++
         List.replicate 71 (sevInc "LOW"))).any
      (fun p => p.ptype = "high_severity_trend")) = false ∧
    (∀ (w : World) (zone : Option String) (hrs : Nat)
        (incidents : List IncidentRec), incidents ≠ [] →
      w.env.recent zone 50 = incidents →
      (∀ i, w.env.auditOk i = true) →
      (AnalystAgent.analyze_patterns zone hrs w).1 =
        .ok (.report (AnalystAgent.identify_patterns incidents)
          (AnalystAgent.generate_insights
            (AnalystAgent.identify_patterns incidents))
          (AnalystAgent.create_recommendations
            (AnalystAgent.identify_patterns incidents))
          incidents.length hrs)) := by
  refine ⟨severity_pattern_mem, ?_, ?_, ?_⟩
  · exact (severity_pattern_mem _ (by decide)).mpr (by decide)
  · cases hval : ((AnalystAgent.identify_patterns
        (List.replicate 29 (sevInc "CRITICAL") ++
         List.replicate 71 (sevInc "LOW"))).any
      (fun p => p.ptype = "high_severity_trend")) with
    | false => rfl
    | true =>
        exact absurd ((severity_pattern_mem _ (by decide)).mp hval) (by decide)
  · intro w zone hrs incidents hne hrec haud
    rw [analyze_patterns_report w zone hrs incidents hne hrec haud]

set_option maxRecDepth 100000 in
/-- C9 witness: the threshold fact applied at the 31%-CRITICAL set. -/
theorem severity_pattern_threshold_witness :
    ((List.replicate 31 (sevInc "CRITICAL") ++
        List.replicate 69 (sevInc "LOW")) ≠ [] ∧
     10 * (List.replicate 31 (sevInc "CRITICAL") ++
        List.replicate 69 (sevInc "LOW")).countP
          (fun i => i.severity = "CRITICAL" ∨ i.severity = "HIGH") >
       3 * (List.replicate 31 (sevInc "CRITICAL") ++
        List.replicate 69 (sevInc "LOW")).length ∧
     ((AnalystAgent.identify_patterns
        (List.replicate 31 (sevInc "CRITICAL") ++
         List.replicate 69 (sevInc "LOW"))).any
       (fun p => p.ptype = "high_severity_trend")) = true) := by
  refine ⟨by decide, by decide, ?_⟩
  exact (severity_pattern_threshold.1 _ (by decide)).mpr (by decide)

/-! ## C10 — a memory-read outage is indistinguishable from absence -/

/-- C10: a failing key-value read is caught and surfaces as absent
(`None`), never raising; consequently, when the idempotency read fails the
Coordinator behaves exactly as a forced re-run started from the post-read
state — the full pipeline runs again even if a plan is physically stored —
and with the store down `getIncidentStatus` reports every artifact flag
false, conversation length 0 and `completed = false`. -/
theorem memory_outage_reads_absent :
    (∀ (w : World) (k : String), w.env.memGetOk w.memGetCalls = false →
      RedisClient.get_memory k w =
        (.ok none, { w with memGetCalls := w.memGetCalls + 1 })) ∧
    (∀ (w : World) (id : String), w.env.memGetOk w.memGetCalls = false →
      AgentCoordinator.process_incident id false w =
        AgentCoordinator.process_incident id true
          { w with memGetCalls := w.memGetCalls + 1 }) ∧
    (∀ (w : World) (id : String),
      (∀ i, w.env.memGetOk i = false) → (∀ i, w.env.listOk i = false) →
      AgentCoordinator.get_incident_status id w =
        (.ok ⟨id, false, false, false, 0, false⟩,
         { w with memGetCalls := w.memGetCalls + 1 + 1 + 1,
                  listCalls := w.listCalls + 1 })) := by
  refine ⟨?_, ?_, ?_⟩
  · intro w k hget
    exact get_memory_fail w k hget
  · intro w id hget
    simp only [AgentCoordinator.process_incident, M.tryCatch, M.run_bind,
      BaseAgent.get_memory, RedisClient.get_memory, hget, Bool.false_eq_true,
      if_false, if_true, M.run_pure]
  · intro w id hget hlist
    simp only [AgentCoordinator.get_incident_status, M.run_bind,
      BaseAgent.get_memory, get_memory_fail, hget,
      BaseAgent.get_conversation_history, get_list_fail, hlist, M.run_pure,
      Option.isSome_none, Bool.and_self, List.length_nil]

/-- C10 witness: with the store down, a world that physically holds a
stored plan still reads as absent, the coordinator proceeds as if forced,
and the status projection reports nothing processed. -/
theorem memory_outage_reads_absent_witness :
    (let env : Env :=
      { mkEnv (fun _ => none) (fun _ => .timeout) (fun _ => none)
          (fun _ => .created 0) with
        memGetOk := fun _ => false
        listOk := fun _ => false }
     let w := World.init env
        [(get_agent_memory_key AgentType.PLANNER.value "i1" ++ ":" ++
            "action_plan", MemVal.plan samplePlan)]
     w.env.memGetOk w.memGetCalls = false ∧
     (∀ i, w.env.memGetOk i = false) ∧
     (∀ i, w.env.listOk i = false) ∧
     RedisClient.get_memory
       (get_agent_memory_key AgentType.PLANNER.value "i1" ++ ":" ++
         "action_plan") w =
       (.ok none, { w with memGetCalls := w.memGetCalls + 1 }) ∧
     AgentCoordinator.process_incident "i1" false w =
       AgentCoordinator.process_incident "i1" true
         { w with memGetCalls := w.memGetCalls + 1 } ∧
     AgentCoordinator.get_incident_status "i1" w =
       (.ok ⟨"i1", false, false, false, 0, false⟩,
        { w with memGetCalls := w.memGetCalls + 1 + 1 + 1,
                 listCalls := w.listCalls + 1 })) := by
  refine ⟨rfl, fun _ => rfl, fun _ => rfl, ?_, ?_, ?_⟩
  · exact memory_outage_reads_absent.1 _ _ rfl
  · exact memory_outage_reads_absent.2.1 _ "i1" rfl
  · exact memory_outage_reads_absent.2.2 _ "i1" (fun _ => rfl) (fun _ => rfl)

end CivicPulse
